import Mathlib

/-!
RBAC reconciliation of the ExternalDNS operator.

A shallow embedding of `pkg/operator/controller/externaldns/rbac.go` and
`pkg/operator/controller/externaldns/operator_rbac.go`.

* Go slices are Lean lists, Go strings are Lean strings.
* A Go `map[string][]string` is a key-unique association list (`RuleMap`).
* Functions that mutate an argument through a pointer return the new value.
* The API client is an explicit interface over a store state; every call a
  reconciler issues is recorded in a chronological call list.
-/

namespace ExternalDNSOperator

/-! ## Data model (k8s.io/api/rbac/v1, the fields the sources touch) -/

/-- The rbacv1.PolicyRule fields read by the sources. -/
structure PolicyRule where
  APIGroups : List String
  Resources : List String
  Verbs : List String
deriving DecidableEq, Repr

/-- The rbacv1.Subject of a binding. -/
structure Subject where
  Kind : String
  Name : String
  Namespace : String
deriving DecidableEq, Repr

/-- The rbacv1.RoleRef of a binding. -/
structure RoleRef where
  APIGroup : String
  Kind : String
  Name : String
deriving DecidableEq, Repr

/-- The metav1.ObjectMeta of an object: its key and one server-assigned field. -/
structure ObjectMeta where
  Name : String
  Namespace : String
  ResourceVersion : String
deriving DecidableEq, Repr

/-- The types.NamespacedName used as a fetch key. -/
structure NamespacedName where
  Name : String
  Namespace : String
deriving DecidableEq, Repr

/-! ## Rule comparison (rbac.go) -/

/-- Go's `a <= b` on strings: lexicographic on the code points, which is the
order of the UTF-8 bytes. -/
def strLE (a b : String) : Prop := a.data ≤ b.data

instance strLE.decidable : DecidableRel strLE :=
  fun a b => inferInstanceAs (Decidable (a.data ≤ b.data))

/-- The result of sort.Strings: the ascending rearrangement of the slice. -/
def sortStrings (l : List String) : List String :=
  l.insertionSort strLE

/-- A Go map with string keys, kept as an association list with unique keys. -/
abbrev GoMap (β : Type) := List (String × β)

/-- The map read m[k], with the found flag as an Option. -/
def GoMap.get? {β : Type} (m : GoMap β) (k : String) : Option β :=
  (m.find? (fun kv => kv.1 == k)).map Prod.snd

/-- The map assignment m[k] = v. -/
def GoMap.set {β : Type} (m : GoMap β) (k : String) (v : β) : GoMap β :=
  (k, v) :: m.filter (fun kv => kv.1 != k)

/-- The map[string][]string of the rule comparison. -/
abbrev RuleMap := GoMap (List String)

/-- The body of the range over rule.Resources, for one apiGroup. -/
def setResources (rule : PolicyRule) (apiGroup : String) (m : RuleMap) : RuleMap :=
  rule.Resources.foldl
    (fun m resource => m.set (apiGroup ++ "/" ++ resource) (sortStrings rule.Verbs)) m

/-- The body of the range over rules, for one rule. -/
def setRule (m : RuleMap) (rule : PolicyRule) : RuleMap :=
  rule.APIGroups.foldl (fun m apiGroup => setResources rule apiGroup m) m

/-- Creates the map from "apigroup/resource" to the sorted list of verbs. -/
def buildSortedPolicyRuleMap (rules : List PolicyRule) : RuleMap :=
  rules.foldl setRule []

/-- Equality of two maps as cmp.Equal sees it: every key of either map is bound
in both, to equal value slices (the value slices are never nil here). -/
def cmpEqual (x y : RuleMap) : Bool :=
  x.all (fun kv => y.get? kv.1 == x.get? kv.1) && y.all (fun kv => x.get? kv.1 == y.get? kv.1)

/-- The keys under which the two maps disagree. -/
def differingKeys (x y : RuleMap) : List String :=
  ((x ++ y).map Prod.fst).filter (fun k => x.get? k != y.get? k)

/-- The report of cmp.Diff: empty exactly when the maps are equal, otherwise a
listing of the keys that differ (the library leaves the format open). -/
def cmpDiff (x y : RuleMap) : String :=
  if cmpEqual x y then "" else "-+ " ++ String.intercalate "," (differingKeys x y)

/-- Returns true if the contents of the rules changed, with the reason. -/
def externalDNSRoleRulesChanged (current expected : List PolicyRule) : Bool × String :=
  let currentRuleMap := buildSortedPolicyRuleMap current
  let expectedRuleMap := buildSortedPolicyRuleMap expected
  let diff := cmpDiff expectedRuleMap currentRuleMap
  if diff ≠ "" then (true, "diff found in the policy rules: " ++ diff)
  else (false, "")

/-! ## Reading the rule comparison -/

/-- The keys one rule writes: one per api-group and resource of the rule. -/
def ruleKeys (rule : PolicyRule) : List String :=
  rule.APIGroups.flatMap (fun g => rule.Resources.map (fun r => g ++ "/" ++ r))

/-- The last rule of the list that writes the key, if any. -/
def lastRuleFor (rules : List PolicyRule) (key : String) : Option PolicyRule :=
  rules.reverse.find? (fun rule => decide (key ∈ ruleKeys rule))

/-- The verbs bound to a key: the sorted verbs of the last rule writing it. -/
def inducedVerbs (rules : List PolicyRule) (key : String) : Option (List String) :=
  (lastRuleFor rules key).map (fun rule => sortStrings rule.Verbs)

/-- The verbs of all rules that mention the api-group and the resource, as the
union reading of rule-set identity has it. -/
def grantedVerbs (rules : List PolicyRule) (g r : String) : List String :=
  (rules.filter (fun rule => decide (g ∈ rule.APIGroups) && decide (r ∈ rule.Resources))).flatMap
    PolicyRule.Verbs

/-- Two rules that differ only in the order of their three lists. -/
def RulePerm (a b : PolicyRule) : Prop :=
  a.APIGroups.Perm b.APIGroups ∧ a.Resources.Perm b.Resources ∧ a.Verbs.Perm b.Verbs

/-! ## Objects and declarations used by the reconcilers -/

/-- The rbacv1.ClusterRole. -/
structure ClusterRole where
  ObjectMeta : ObjectMeta
  Rules : List PolicyRule
deriving DecidableEq, Repr

/-- The rbacv1.Role. -/
structure Role where
  ObjectMeta : ObjectMeta
  Rules : List PolicyRule
deriving DecidableEq, Repr

/-- The rbacv1.ClusterRoleBinding. -/
structure ClusterRoleBinding where
  ObjectMeta : ObjectMeta
  RoleRef : RoleRef
  Subjects : List Subject
deriving DecidableEq, Repr

/-- The rbacv1.RoleBinding. -/
structure RoleBinding where
  ObjectMeta : ObjectMeta
  RoleRef : RoleRef
  Subjects : List Subject
deriving DecidableEq, Repr

/-- The metav1.OwnerReference of an object, by its kind and name. -/
structure OwnerReference where
  Kind : String
  Name : String
deriving DecidableEq, Repr

/-- The corev1.ServiceAccount with its owner references. -/
structure ServiceAccount where
  ObjectMeta : ObjectMeta
  OwnerReferences : List OwnerReference
deriving DecidableEq, Repr

/-- The operatorv1alpha1.ExternalDNS object: its name and Spec.Source.Type. -/
structure ExternalDNS where
  Name : String
  SourceType : String
deriving DecidableEq, Repr

/-- The declarations of packages controller and api/v1alpha1 that the sources
use and do not contain; they are parameters of everything below. -/
structure Names where
  ExternalDNSBaseName : String
  ExternalDNSGlobalResourceName : String
  ExternalDNSResourceName : ExternalDNS → String
  ServiceAccountName : String
  SourceTypeRoute : String

/-- A sample of the declarations: shared objects are named by the base name,
the objects of one ExternalDNS by the base name followed by its own name. -/
def sampleNames : Names where
  ExternalDNSBaseName := "external-dns"
  ExternalDNSGlobalResourceName := "external-dns"
  ExternalDNSResourceName := fun e => "external-dns-" ++ e.Name
  ServiceAccountName := "external-dns-operator"
  SourceTypeRoute := "OpenShiftRoute"

/-- The constant rbacv1.GroupName. -/
def GroupName : String := "rbac.authorization.k8s.io"

/-- The constant rbacv1.ServiceAccountKind. -/
def ServiceAccountKind : String := "ServiceAccount"

/-- An ObjectMeta literal that sets the name and the namespace only. -/
def metaOf (name ns : String) : ObjectMeta :=
  { Name := name, Namespace := ns, ResourceVersion := "" }

/-! ## Desired state (rbac.go, operator_rbac.go) -/

/-- Returns the desired cluster role definition for externalDNS. -/
def desiredExternalDNSClusterRole (N : Names) (externalDNS : ExternalDNS) : ClusterRole :=
  let rules : List PolicyRule := [
    { APIGroups := ["networking.k8s.io"], Resources := ["ingresses"],
      Verbs := ["get", "list", "watch"] },
    { APIGroups := [""], Resources := ["endpoints", "services", "pods", "nodes"],
      Verbs := ["get", "list", "watch"] }]
  let rules :=
    if externalDNS.SourceType = N.SourceTypeRoute then
      rules ++ [{ APIGroups := ["route.openshift.io"], Resources := ["routes"],
                  Verbs := ["get", "watch", "list"] }]
    else rules
  { ObjectMeta := metaOf N.ExternalDNSBaseName "", Rules := rules }

/-- Returns the desired cluster role binding definition for externalDNS. -/
def desiredExternalDNSClusterRoleBinding (N : Names) (ns : String) (externalDNS : ExternalDNS)
    (sasOwnedByExtDNS : List String) : ClusterRoleBinding :=
  let rb : ClusterRoleBinding :=
    { ObjectMeta := metaOf N.ExternalDNSBaseName ""
      RoleRef := { APIGroup := GroupName, Kind := "ClusterRole", Name := N.ExternalDNSBaseName }
      Subjects := [{ Kind := ServiceAccountKind, Name := N.ExternalDNSResourceName externalDNS,
                     Namespace := ns }] }
  sasOwnedByExtDNS.foldl
    (fun rb sa =>
      if sa ≠ N.ExternalDNSResourceName externalDNS then
        { rb with Subjects := rb.Subjects ++
            [{ Kind := ServiceAccountKind, Name := sa, Namespace := ns }] }
      else rb)
    rb

/-- The desired operator role in the operand namespace. -/
def desiredOperatorRole (name : NamespacedName) : Role :=
  let rules : List PolicyRule := [
    { APIGroups := [""], Resources := ["secrets"],
      Verbs := ["get", "list", "watch", "create", "update", "delete"] },
    { APIGroups := [""], Resources := ["serviceaccounts"],
      Verbs := ["get", "list", "watch", "create", "update", "delete"] },
    { APIGroups := ["apps"], Resources := ["deployments"],
      Verbs := ["get", "list", "watch", "create", "update", "delete"] }]
  { ObjectMeta := metaOf name.Name name.Namespace, Rules := rules }

/-- The desired operator role binding in the operand namespace. -/
def desiredOperatorRoleBinding (N : Names) (name : NamespacedName)
    (operatorNamespace : String) : RoleBinding :=
  { ObjectMeta := metaOf name.Name name.Namespace
    RoleRef := { APIGroup := GroupName, Kind := "Role", Name := name.Name }
    Subjects := [{ Kind := ServiceAccountKind, Name := N.ServiceAccountName,
                   Namespace := operatorNamespace }] }

/-! ## Binding comparison -/

/-- The first step shared by both binding comparisons: the role name. The
result is changed, what, and the RoleRef of updated. -/
def roleNameStep (current desired updated : RoleRef) : Bool × List String × RoleRef :=
  if current.Name ≠ desired.Name then
    (true, ["role-name"], { updated with Name := desired.Name })
  else (false, [], updated)

/-- The final line of both binding comparisons. -/
def changedReason (what : List String) : String :=
  "following fields changed: " ++ String.intercalate "," what

namespace Rbac

/-- The index of the current subjects by name, a dash and namespace. -/
def currentSubjects (subjects : List Subject) : GoMap Subject :=
  subjects.foldl (fun m subject => m.set (subject.Name ++ "-" ++ subject.Namespace) subject) []

/-- The range over desired.Subjects, run on changed and what. -/
def subjectsStep (index : GoMap Subject) (desired : List Subject)
    (acc : Bool × List String) : Bool × List String :=
  desired.foldl
    (fun acc desiredSubject =>
      match index.get? (desiredSubject.Name ++ "-" ++ desiredSubject.Namespace) with
      | some _ => acc
      | none => (true, acc.2 ++ ["subject: " ++ desiredSubject.Name ++ ", Namespace: "
                  ++ desiredSubject.Namespace]))
    acc

/-- The comparison of rbac.go on cluster role bindings: returns changed, the
reason, and updated as the function leaves it. -/
def externalDNSRoleBindingChanged (current desired updated : ClusterRoleBinding) :
    Bool × String × ClusterRoleBinding :=
  let s1 := roleNameStep current.RoleRef desired.RoleRef updated.RoleRef
  let updated := { updated with RoleRef := s1.2.2 }
  let s2 :=
    if current.Subjects.length > 0 then
      subjectsStep (currentSubjects current.Subjects) desired.Subjects (s1.1, s1.2.1)
    else (s1.1, s1.2.1)
  (s2.1, changedReason s2.2, updated)

end Rbac

namespace OperatorRbac

/-- The assignment updated.Subjects[0].Name = name; none when out of range. -/
def setSubject0Name (updated : RoleBinding) (name : String) : Option RoleBinding :=
  match updated.Subjects with
  | [] => none
  | s :: rest => some { updated with Subjects := { s with Name := name } :: rest }

/-- The assignment updated.Subjects[0].Namespace = ns; none when out of range. -/
def setSubject0Namespace (updated : RoleBinding) (ns : String) : Option RoleBinding :=
  match updated.Subjects with
  | [] => none
  | s :: rest => some { updated with Subjects := { s with Namespace := ns } :: rest }

/-- The comparison of operator_rbac.go on role bindings: returns changed, the
reason, and updated as the function leaves it; none when an index is out of
range. -/
def externalDNSRoleBindingChanged (current desired updated : RoleBinding) :
    Option (Bool × String × RoleBinding) :=
  let s1 := roleNameStep current.RoleRef desired.RoleRef updated.RoleRef
  let updated := { updated with RoleRef := s1.2.2 }
  if current.Subjects.length > 0 then
    match current.Subjects[0]?, desired.Subjects[0]? with
    | some c0, some d0 =>
      let s2 : Option (Bool × List String × RoleBinding) :=
        if c0.Name ≠ d0.Name then
          (setSubject0Name updated d0.Name).map
            (fun u => (true, s1.2.1 ++ ["subject-name"], u))
        else some (s1.1, s1.2.1, updated)
      match s2 with
      | none => none
      | some (changed, what, updated) =>
        if c0.Namespace ≠ d0.Namespace then
          (setSubject0Namespace updated d0.Namespace).map
            (fun u => (true, changedReason (what ++ ["subject-namespace"]), u))
        else some (changed, changedReason what, updated)
    | _, _ => none
  else some (s1.1, changedReason s1.2.1, updated)

end OperatorRbac

/-! ## The API client -/

/-- A Go error value: a not-found status error, any other error, or an error
wrapped with a message by fmt.Errorf. -/
inductive Error where
  | notFound (msg : String)
  | other (msg : String)
  | wrapped (msg : String) (err : Error)
deriving DecidableEq, Repr

/-- The test errors.IsNotFound. -/
def IsNotFound : Error → Bool
  | .notFound _ => true
  | .other _ => false
  | .wrapped _ err => IsNotFound err

/-- The client calls on objects of one kind, over a store state: Get reads the
store, Create and Update return the next store and the error, if any. -/
structure Client (σ α : Type) where
  Get : σ → NamespacedName → Except Error α
  Create : σ → α → σ × Option Error
  Update : σ → α → σ × Option Error

/-- The client call List on service accounts of a namespace. -/
abbrev Lister (σ : Type) := σ → String → Except Error (List ServiceAccount)

/-- A call issued to the client. -/
inductive Call (α : Type) where
  | get (name : NamespacedName)
  | list (ns : String)
  | create (obj : α)
  | update (obj : α)
deriving DecidableEq, Repr

/-- Whether the call is a Create or an Update. -/
def Call.isWrite {α : Type} : Call α → Bool
  | .create _ => true
  | .update _ => true
  | _ => false

/-- The store together with the calls issued so far, oldest first. -/
structure World (σ α : Type) where
  store : σ
  calls : List (Call α)

/-- The Go triple (exists, object, error) returned by the reconcilers. -/
abbrev Outcome (α : Type) := Bool × Option α × Option Error

/-- The fetch shared by the four current functions: Get, with not-found turned
into exists = false. -/
def currentObject {σ α : Type} (c : Client σ α) (w : World σ α) (name : NamespacedName) :
    World σ α × Outcome α :=
  let w1 : World σ α := { w with calls := w.calls ++ [.get name] }
  match c.Get w.store name with
  | .error err => if IsNotFound err then (w1, false, none, none) else (w1, false, none, some err)
  | .ok obj => (w1, true, some obj, none)

/-- The create shared by the four create functions: Create, the error wrapped
with the given message. -/
def createObject {σ α : Type} (c : Client σ α) (w : World σ α) (desired : α) (msg : String) :
    World σ α × Option Error :=
  match c.Create w.store desired with
  | (s, some err) => ({ store := s, calls := w.calls ++ [.create desired] }, some (.wrapped msg err))
  | (s, none) => ({ store := s, calls := w.calls ++ [.create desired] }, none)

/-- The call r.client.Update(ctx, updated) with its result (updated, err). -/
def updateObject {σ α : Type} (c : Client σ α) (w : World σ α) (updated : α) :
    World σ α × Bool × Option Error :=
  match c.Update w.store updated with
  | (s, some err) => ({ store := s, calls := w.calls ++ [.update updated] }, false, some err)
  | (s, none) => ({ store := s, calls := w.calls ++ [.update updated] }, true, none)

/-! ## Cluster role (rbac.go) -/

/-- Returns true if the cluster role exists. -/
def currentExternalDNSClusterRole {σ : Type} (c : Client σ ClusterRole)
    (w : World σ ClusterRole) (name : NamespacedName) : World σ ClusterRole × Outcome ClusterRole :=
  currentObject c w name

/-- Creates the given cluster role. -/
def createExternalDNSClusterRole {σ : Type} (c : Client σ ClusterRole)
    (w : World σ ClusterRole) (desired : ClusterRole) : World σ ClusterRole × Option Error :=
  createObject c w desired
    ("failed to create externalDNS cluster role " ++ desired.ObjectMeta.Name ++ ": ")

/-- Updates the cluster role with the desired state if the rules differ. -/
def updateExternalDNSClusterRole {σ : Type} (c : Client σ ClusterRole)
    (w : World σ ClusterRole) (current desired : ClusterRole) :
    World σ ClusterRole × Bool × Option Error :=
  let (changed, _) := externalDNSRoleRulesChanged current.Rules desired.Rules
  if !changed then (w, false, none)
  else
    let updated := { current with Rules := desired.Rules }
    updateObject c w updated

/-- Ensures that the externalDNS cluster role exists. -/
def ensureExternalDNSClusterRole {σ : Type} (c : Client σ ClusterRole) (N : Names)
    (w : World σ ClusterRole) (externalDNS : ExternalDNS) :
    World σ ClusterRole × Outcome ClusterRole :=
  let name : NamespacedName := { Name := N.ExternalDNSGlobalResourceName, Namespace := "" }
  let desired := desiredExternalDNSClusterRole N externalDNS
  match currentExternalDNSClusterRole c w name with
  | (w1, _, _, some err) => (w1, false, none, some err)
  | (w1, false, _, none) =>
    match createExternalDNSClusterRole c w1 desired with
    | (w2, some err) => (w2, false, none, some err)
    | (w2, none) => currentExternalDNSClusterRole c w2 name
  | (w1, true, none, none) => (w1, true, none, none)
  | (w1, true, some current, none) =>
    match updateExternalDNSClusterRole c w1 current desired with
    | (w2, _, some err) => (w2, true, some current, some err)
    | (w2, true, none) => currentExternalDNSClusterRole c w2 name
    | (w2, false, none) => (w2, true, some current, none)

/-! ## Cluster role binding (rbac.go) -/

/-- Returns true if the cluster role binding exists. -/
def currentExternalDNSClusterRoleBinding {σ : Type} (c : Client σ ClusterRoleBinding)
    (w : World σ ClusterRoleBinding) (name : NamespacedName) :
    World σ ClusterRoleBinding × Outcome ClusterRoleBinding :=
  currentObject c w name

/-- The names of the service accounts of the namespace that an ExternalDNS
owns, one entry per owning reference. -/
def currentExtDNSOwnedServiceAccounts {σ : Type} (list : Lister σ)
    (w : World σ ClusterRoleBinding) (ns : String) :
    World σ ClusterRoleBinding × List String × Option Error :=
  let w1 : World σ ClusterRoleBinding := { w with calls := w.calls ++ [.list ns] }
  match list w.store ns with
  | .error err => (w1, [], some err)
  | .ok items =>
    (w1,
     items.foldl
      (fun matchingSANames sa =>
        sa.OwnerReferences.foldl
          (fun matchingSANames ownerRef =>
            if ownerRef.Kind = "ExternalDNS" then matchingSANames ++ [sa.ObjectMeta.Name]
            else matchingSANames)
          matchingSANames)
      [],
     none)

/-- Creates the given cluster role binding. -/
def createExternalDNSClusterRoleBinding {σ : Type} (c : Client σ ClusterRoleBinding)
    (w : World σ ClusterRoleBinding) (desired : ClusterRoleBinding) :
    World σ ClusterRoleBinding × Option Error :=
  createObject c w desired
    ("failed to create externalDNS cluster role binding " ++ desired.ObjectMeta.Name ++ ": ")

/-- Updates the cluster role binding if the role or a subject changed. -/
def updateExternalDNSClusterRoleBinding {σ : Type} (c : Client σ ClusterRoleBinding)
    (w : World σ ClusterRoleBinding) (current desired : ClusterRoleBinding) :
    World σ ClusterRoleBinding × Bool × Option Error :=
  let updated := current
  let (changed, _, updated) := Rbac.externalDNSRoleBindingChanged current desired updated
  if !changed then (w, false, none)
  else updateObject c w updated

/-- Ensures that the externalDNS cluster role binding exists. -/
def ensureExternalDNSClusterRoleBinding {σ : Type} (c : Client σ ClusterRoleBinding)
    (list : Lister σ) (N : Names) (w : World σ ClusterRoleBinding) (ns : String)
    (externalDNS : ExternalDNS) : World σ ClusterRoleBinding × Outcome ClusterRoleBinding :=
  let name : NamespacedName := { Name := N.ExternalDNSResourceName externalDNS, Namespace := "" }
  let crbName : NamespacedName := { Name := N.ExternalDNSBaseName, Namespace := "" }
  match currentExtDNSOwnedServiceAccounts list w ns with
  | (w0, _, some err) => (w0, false, none, some err)
  | (w0, currentSAs, none) =>
    let desired := desiredExternalDNSClusterRoleBinding N ns externalDNS currentSAs
    match currentExternalDNSClusterRoleBinding c w0 crbName with
    | (w1, _, _, some err) => (w1, false, none, some err)
    | (w1, false, _, none) =>
      match createExternalDNSClusterRoleBinding c w1 desired with
      | (w2, some err) => (w2, false, none, some err)
      | (w2, none) => currentExternalDNSClusterRoleBinding c w2 name
    | (w1, true, none, none) => (w1, true, none, none)
    | (w1, true, some current, none) =>
      match updateExternalDNSClusterRoleBinding c w1 current desired with
      | (w2, _, some err) => (w2, true, some current, some err)
      | (w2, true, none) => currentExternalDNSClusterRoleBinding c w2 name
      | (w2, false, none) => (w2, true, some current, none)

/-! ## Operator role (operator_rbac.go)

The sources call a comparison rulesChanged that they do not define; it is a
parameter of the functions that use it. -/

/-- The type of the rule comparison rulesChanged. -/
abbrev RulesComparison := List PolicyRule → List PolicyRule → Bool × String

/-- Returns true if the operator role exists in the operand namespace. -/
def currentOperatorRoleInExternalDNSNS {σ : Type} (c : Client σ Role) (w : World σ Role)
    (name : NamespacedName) : World σ Role × Outcome Role :=
  currentObject c w name

/-- Creates the given operator role. -/
def createOperatorRoleInExternalDNSNS {σ : Type} (c : Client σ Role) (w : World σ Role)
    (desired : Role) : World σ Role × Option Error :=
  createObject c w desired
    ("failed to create operator role " ++ desired.ObjectMeta.Name ++ " in namespace "
      ++ desired.ObjectMeta.Namespace ++ ": ")

/-- Updates the operator role with the desired rules if the rules differ. -/
def updateOperatorRoleInExternalDNSNS {σ : Type} (rulesChanged : RulesComparison)
    (c : Client σ Role) (w : World σ Role) (current desired : Role) :
    World σ Role × Bool × Option Error :=
  let (changed, _) := rulesChanged current.Rules desired.Rules
  if !changed then (w, false, none)
  else
    let updated := { current with Rules := desired.Rules }
    updateObject c w updated

/-- Ensures that the operator role exists in the operand namespace. -/
def ensureOperatorRoleInExternalDNSNS {σ : Type} (rulesChanged : RulesComparison)
    (c : Client σ Role) (N : Names) (w : World σ Role) (ns : String) :
    World σ Role × Outcome Role :=
  let name : NamespacedName := { Name := N.ServiceAccountName, Namespace := ns }
  let desired := desiredOperatorRole name
  match currentOperatorRoleInExternalDNSNS c w name with
  | (w1, _, _, some err) => (w1, false, none, some err)
  | (w1, false, _, none) =>
    match createOperatorRoleInExternalDNSNS c w1 desired with
    | (w2, some err) => (w2, false, none, some err)
    | (w2, none) => currentOperatorRoleInExternalDNSNS c w2 name
  | (w1, true, none, none) => (w1, true, none, none)
  | (w1, true, some current, none) =>
    match updateOperatorRoleInExternalDNSNS rulesChanged c w1 current desired with
    | (w2, _, some err) => (w2, true, some current, some err)
    | (w2, true, none) => currentOperatorRoleInExternalDNSNS c w2 name
    | (w2, false, none) => (w2, true, some current, none)

/-! ## Operator role binding (operator_rbac.go) -/

/-- Returns true if the operator role binding exists in the operand namespace. -/
def currentOperatorRoleBindingInExternalDNSNS {σ : Type} (c : Client σ RoleBinding)
    (w : World σ RoleBinding) (name : NamespacedName) :
    World σ RoleBinding × Outcome RoleBinding :=
  currentObject c w name

/-- Creates the given operator role binding. -/
def createOperatorRoleBindingInExternalDNSNS {σ : Type} (c : Client σ RoleBinding)
    (w : World σ RoleBinding) (desired : RoleBinding) : World σ RoleBinding × Option Error :=
  createObject c w desired
    ("failed to create externalDNS operator role binding " ++ desired.ObjectMeta.Name
      ++ " within namespace " ++ desired.ObjectMeta.Namespace ++ ": ")

/-- Updates the operator role binding if the role or the subject changed; none
when the comparison indexes out of range. -/
def updateOperatorRoleBindingInExternalDNSNS {σ : Type} (c : Client σ RoleBinding)
    (w : World σ RoleBinding) (current desired : RoleBinding) :
    Option (World σ RoleBinding × Bool × Option Error) :=
  let updated := current
  match OperatorRbac.externalDNSRoleBindingChanged current desired updated with
  | none => none
  | some (changed, _, updated) =>
    if !changed then some (w, false, none)
    else some (updateObject c w updated)

/-- Ensures that the operator role binding exists in the operand namespace;
none when the comparison indexes out of range. -/
def ensureOperatorRoleBindingInExternalDNSNS {σ : Type} (c : Client σ RoleBinding) (N : Names)
    (w : World σ RoleBinding) (ns : String) (operatorNamespace : String) :
    Option (World σ RoleBinding × Outcome RoleBinding) :=
  let name : NamespacedName := { Name := N.ServiceAccountName, Namespace := ns }
  let desired := desiredOperatorRoleBinding N name operatorNamespace
  match currentOperatorRoleBindingInExternalDNSNS c w name with
  | (w1, _, _, some err) => some (w1, false, none, some err)
  | (w1, false, _, none) =>
    match createOperatorRoleBindingInExternalDNSNS c w1 desired with
    | (w2, some err) => some (w2, false, none, some err)
    | (w2, none) => some (currentOperatorRoleBindingInExternalDNSNS c w2 name)
  | (w1, true, none, none) => some (w1, true, none, none)
  | (w1, true, some current, none) =>
    match updateOperatorRoleBindingInExternalDNSNS c w1 current desired with
    | none => none
    | some (w2, _, some err) => some (w2, true, some current, some err)
    | some (w2, true, none) => some (currentOperatorRoleBindingInExternalDNSNS c w2 name)
    | some (w2, false, none) => some (w2, true, some current, none)

/-! ## Store models -/

/-- Whether the object metadata sits under the key. -/
def keyMatches (m : ObjectMeta) (name : NamespacedName) : Bool :=
  m.Name == name.Name && m.Namespace == name.Namespace

/-- The store in which Get returns the object last written under a key and
every Create and Update succeeds; the state lists the writes, newest first,
and a write passes through stamp, the server-side defaulting. -/
def memClient {α : Type} (objectMeta : α → ObjectMeta) (stamp : α → α) : Client (List α) α where
  Get := fun s name =>
    match s.find? (fun o => keyMatches (objectMeta o) name) with
    | some o => .ok o
    | none => .error (.notFound name.Name)
  Create := fun s o => (stamp o :: s, none)
  Update := fun s o => (stamp o :: s, none)

/-- The List call that returns the service accounts of the namespace out of a
fixed population. -/
def memLister {σ : Type} (sas : List ServiceAccount) : Lister σ :=
  fun _ ns => .ok (sas.filter (fun sa => sa.ObjectMeta.Namespace == ns))

/-- A client whose every call fails with the given error. -/
def failingClient {σ α : Type} (err : Error) : Client σ α where
  Get := fun _ _ => .error err
  Create := fun s _ => (s, some err)
  Update := fun s _ => (s, some err)

/-- The calls of a run that are writes. -/
def writes {α : Type} (calls : List (Call α)) : List (Call α) :=
  calls.filter Call.isWrite

/-! ## Sample inputs -/

/-- A stored cluster role binding with the subjects external-dns-a and
external-dns-b of namespace ns. -/
def sampleBindingAB : ClusterRoleBinding :=
  { ObjectMeta := { Name := "external-dns", Namespace := "", ResourceVersion := "7" }
    RoleRef := { APIGroup := GroupName, Kind := "ClusterRole", Name := "external-dns" }
    Subjects := [{ Kind := ServiceAccountKind, Name := "external-dns-a", Namespace := "ns" },
                 { Kind := ServiceAccountKind, Name := "external-dns-b", Namespace := "ns" }] }

/-- The service accounts external-dns-b and external-dns-c of namespace ns,
each owned by an ExternalDNS. -/
def sampleOwnedBC : List ServiceAccount :=
  [{ ObjectMeta := metaOf "external-dns-b" "ns", OwnerReferences := [⟨"ExternalDNS", "b"⟩] },
   { ObjectMeta := metaOf "external-dns-c" "ns", OwnerReferences := [⟨"ExternalDNS", "c"⟩] }]

/-- The ExternalDNS object named a, with a Service source. -/
def sampleExternalDNS : ExternalDNS := { Name := "a", SourceType := "Service" }

/-- The desired binding for sampleExternalDNS when it owns the service accounts
of sampleOwnedBC: subjects external-dns-a, external-dns-b, external-dns-c. -/
def sampleDesiredABC : ClusterRoleBinding :=
  desiredExternalDNSClusterRoleBinding sampleNames "ns" sampleExternalDNS
    ["external-dns-b", "external-dns-c"]

/-- The server-side defaulting that assigns resource version 1. -/
def stampVersion (m : ObjectMeta) : ObjectMeta := { m with ResourceVersion := "1" }

/-- The store of roles that assigns resource version 1 on every write. -/
def stampingRoles : Client (List Role) Role :=
  memClient Role.ObjectMeta (fun o => { o with ObjectMeta := stampVersion o.ObjectMeta })

/-- The store of role bindings that assigns resource version 1 on every write. -/
def stampingRoleBindings : Client (List RoleBinding) RoleBinding :=
  memClient RoleBinding.ObjectMeta (fun o => { o with ObjectMeta := stampVersion o.ObjectMeta })

/-- The store of cluster roles that assigns resource version 1 on every write. -/
def stampingClusterRoles : Client (List ClusterRole) ClusterRole :=
  memClient ClusterRole.ObjectMeta (fun o => { o with ObjectMeta := stampVersion o.ObjectMeta })

/-- The desired operator role of namespace ns as the stamping store holds it. -/
def sampleStoredRole : Role :=
  { ObjectMeta := ⟨"external-dns-operator", "ns", "1"⟩
    Rules := (desiredOperatorRole ⟨"external-dns-operator", "ns"⟩).Rules }

/-- The desired operator role binding of namespace ns as the stamping store
holds it. -/
def sampleStoredRoleBinding : RoleBinding :=
  { ObjectMeta := ⟨"external-dns-operator", "ns", "1"⟩
    RoleRef := ⟨GroupName, "Role", "external-dns-operator"⟩
    Subjects := [⟨ServiceAccountKind, "external-dns-operator", "operator-ns"⟩] }

/-- The desired cluster role of sampleExternalDNS as the stamping store holds
it. -/
def sampleStoredClusterRole : ClusterRole :=
  { ObjectMeta := ⟨"external-dns", "", "1"⟩
    Rules := (desiredExternalDNSClusterRole sampleNames sampleExternalDNS).Rules }

/-- A stored cluster role under the base name whose rules have drifted to none. -/
def sampleDriftedClusterRole : ClusterRole :=
  { ObjectMeta := ⟨"external-dns", "", "3"⟩, Rules := [] }

/-- A stored operator role of namespace ns whose rules have drifted to none. -/
def sampleDriftedRole : Role :=
  { ObjectMeta := ⟨"external-dns-operator", "ns", "3"⟩, Rules := [] }

/-! ## Further models and sample inputs -/

/-- A client whose Get returns the given object and whose writes fail with
the given error. -/
def readOnlyClient {σ α : Type} (current : α) (err : Error) : Client σ α where
  Get := fun _ _ => .ok current
  Create := fun s _ => (s, some err)
  Update := fun s _ => (s, some err)

/-- A stored operator role binding of namespace ns whose subject sits in
another namespace than the operator. -/
def sampleDriftedRoleBinding : RoleBinding :=
  { ObjectMeta := ⟨"external-dns-operator", "ns", "3"⟩
    RoleRef := ⟨GroupName, "Role", "external-dns-operator"⟩
    Subjects := [⟨ServiceAccountKind, "external-dns-operator", "old-ns"⟩] }

/-- The key under which the cluster role binding comparison indexes a subject. -/
def subjectKey (s : Subject) : String := s.Name ++ "-" ++ s.Namespace

/-- Whether some rule of the list has the api-group among its APIGroups and
the resource among its Resources. -/
def pairOccurs (rules : List PolicyRule) (g r : String) : Bool :=
  rules.any (fun rule => decide (g ∈ rule.APIGroups) && decide (r ∈ rule.Resources))

/-- A stored cluster role binding without subjects. -/
def sampleBindingNoSubjects : ClusterRoleBinding :=
  { ObjectMeta := ⟨"external-dns", "", "7"⟩
    RoleRef := ⟨GroupName, "ClusterRole", "external-dns"⟩
    Subjects := [] }

/-- A stored cluster role binding whose one subject is the service account
external-dns-foo-bar of namespace baz. -/
def sampleBindingFooBar : ClusterRoleBinding :=
  { ObjectMeta := ⟨"external-dns", "", "7"⟩
    RoleRef := ⟨GroupName, "ClusterRole", "external-dns"⟩
    Subjects := [⟨ServiceAccountKind, "external-dns-foo-bar", "baz"⟩] }

/-- The fields the comparison of role bindings reports, in its order: the role
name, the name and the namespace of the first subject, each when it differs. -/
def strictDiff (current desired : RoleRef) (c0 d0 : Subject) : List String :=
  (if current.Name ≠ desired.Name then ["role-name"] else [])
    ++ (if c0.Name ≠ d0.Name then ["subject-name"] else [])
    ++ (if c0.Namespace ≠ d0.Namespace then ["subject-namespace"] else [])

/-! ## Lemmas on the rule map -/

theorem strLE_iff (a b : String) : strLE a b ↔ a ≤ b :=
  String.le_iff_toList_le.symm

theorem strLE_total : IsTotal String strLE :=
  ⟨fun a b => by simp only [strLE_iff]; exact le_total a b⟩

theorem strLE_trans : IsTrans String strLE :=
  ⟨fun a b c => by simp only [strLE_iff]; exact le_trans⟩

theorem strLE_antisymm : IsAntisymm String strLE :=
  ⟨fun a b => by simp only [strLE_iff]; exact le_antisymm⟩

theorem sortStrings_perm (l : List String) : (sortStrings l).Perm l :=
  List.perm_insertionSort strLE l

theorem sortStrings_sorted (l : List String) : (sortStrings l).Sorted strLE :=
  haveI := strLE_total
  haveI := strLE_trans
  List.sorted_insertionSort strLE l

theorem sortStrings_congr {l l' : List String} (h : l.Perm l') :
    sortStrings l = sortStrings l' :=
  haveI := strLE_antisymm
  List.eq_of_perm_of_sorted
    (((sortStrings_perm l).trans h).trans (sortStrings_perm l').symm)
    (sortStrings_sorted l) (sortStrings_sorted l')

theorem find?_filter_ne {β : Type} (m : GoMap β) {k k' : String} (h : k' ≠ k) :
    (m.filter (fun kv => kv.1 != k)).find? (fun kv => kv.1 == k')
      = m.find? (fun kv => kv.1 == k') := by
  induction m with
  | nil => rfl
  | cons kv m ih =>
    by_cases h1 : kv.1 = k
    · have hb : (kv.1 != k) = false := by simp [h1]
      have hb' : (kv.1 == k') = false := by
        simp only [beq_eq_false_iff_ne, ne_eq]
        exact fun e => h (e.symm.trans h1)
      simp only [List.filter_cons, hb, List.find?_cons, hb']
      exact ih
    · have hb : (kv.1 != k) = true := by simp [h1]
      simp only [List.filter_cons, hb, List.find?_cons, if_true]
      cases hc : (kv.1 == k')
      · exact ih
      · rfl

theorem GoMap.get?_set {β : Type} (m : GoMap β) (k k' : String) (v : β) :
    (m.set k v).get? k' = if k' = k then some v else m.get? k' := by
  unfold GoMap.set GoMap.get?
  by_cases h : k' = k
  · subst h; simp
  · have h' : ¬ k = k' := fun e => h e.symm
    rw [List.find?_cons]
    simp only [beq_iff_eq, h', h, if_false]
    have : ((k == k') = false) := by simp [h']
    simp only [this]
    rw [find?_filter_ne m h]

theorem get?_foldl_set (rs : List String) (f : String → String) (v : List String)
    (m : RuleMap) (k : String) :
    (rs.foldl (fun m r => m.set (f r) v) m).get? k
      = if k ∈ rs.map f then some v else m.get? k := by
  induction rs generalizing m with
  | nil => simp
  | cons r rs ih =>
    simp only [List.foldl_cons, ih, GoMap.get?_set, List.map_cons, List.mem_cons]
    by_cases h1 : k ∈ rs.map f <;> by_cases h2 : k = f r <;> simp [h1, h2]

theorem get?_setResources (rule : PolicyRule) (g : String) (m : RuleMap) (k : String) :
    (setResources rule g m).get? k
      = if k ∈ rule.Resources.map (fun r => g ++ "/" ++ r) then some (sortStrings rule.Verbs)
        else m.get? k :=
  get?_foldl_set rule.Resources (fun r => g ++ "/" ++ r) (sortStrings rule.Verbs) m k

theorem get?_foldl_setResources (rule : PolicyRule) (gs : List String) (m : RuleMap)
    (k : String) :
    (gs.foldl (fun m g => setResources rule g m) m).get? k
      = if k ∈ gs.flatMap (fun g => rule.Resources.map (fun r => g ++ "/" ++ r))
        then some (sortStrings rule.Verbs) else m.get? k := by
  induction gs generalizing m with
  | nil => simp
  | cons g gs ih =>
    simp only [List.foldl_cons, ih, get?_setResources, List.flatMap_cons, List.mem_append]
    by_cases h1 : k ∈ gs.flatMap (fun g => rule.Resources.map (fun r => g ++ "/" ++ r)) <;>
      by_cases h2 : k ∈ rule.Resources.map (fun r => g ++ "/" ++ r) <;> simp [h1, h2]

theorem get?_setRule (m : RuleMap) (rule : PolicyRule) (k : String) :
    (setRule m rule).get? k
      = if k ∈ ruleKeys rule then some (sortStrings rule.Verbs) else m.get? k :=
  get?_foldl_setResources rule rule.APIGroups m k

theorem lastRuleFor_cons (rule : PolicyRule) (rules : List PolicyRule) (k : String) :
    lastRuleFor (rule :: rules) k
      = match lastRuleFor rules k with
        | some r => some r
        | none => if k ∈ ruleKeys rule then some rule else none := by
  unfold lastRuleFor
  rw [List.reverse_cons, List.find?_append]
  cases List.find? (fun rule => decide (k ∈ ruleKeys rule)) rules.reverse with
  | some r => rfl
  | none =>
    by_cases h : k ∈ ruleKeys rule <;> simp [List.find?_cons, h]

theorem get?_foldl_setRule (rules : List PolicyRule) (m : RuleMap) (k : String) :
    (rules.foldl setRule m).get? k
      = match inducedVerbs rules k with
        | some v => some v
        | none => m.get? k := by
  induction rules generalizing m with
  | nil => rfl
  | cons rule rules ih =>
    rw [List.foldl_cons, ih]
    unfold inducedVerbs
    rw [lastRuleFor_cons]
    cases lastRuleFor rules k with
    | some r => rfl
    | none =>
      by_cases h : k ∈ ruleKeys rule <;> simp [get?_setRule, h]

theorem get?_buildSortedPolicyRuleMap (rules : List PolicyRule) (k : String) :
    (buildSortedPolicyRuleMap rules).get? k = inducedVerbs rules k := by
  unfold buildSortedPolicyRuleMap
  rw [get?_foldl_setRule]
  cases inducedVerbs rules k <;> rfl

theorem GoMap.get?_eq_some_mem {β : Type} {m : GoMap β} {k : String} {v : β}
    (h : m.get? k = some v) : ∃ kv ∈ m, kv.1 = k := by
  unfold GoMap.get? at h
  cases hf : m.find? (fun kv => kv.1 == k) with
  | none => rw [hf] at h; cases h
  | some kv =>
    refine ⟨kv, List.mem_of_find?_eq_some hf, ?_⟩
    simpa using List.find?_some hf

theorem cmpEqual_iff (x y : RuleMap) :
    cmpEqual x y = true ↔ ∀ k, x.get? k = y.get? k := by
  unfold cmpEqual
  simp only [Bool.and_eq_true, List.all_eq_true, beq_iff_eq]
  constructor
  · rintro ⟨hx, hy⟩ k
    cases hxk : x.get? k with
    | some v =>
      obtain ⟨kv, hmem, hk⟩ := GoMap.get?_eq_some_mem hxk
      have := hx kv hmem
      rw [hk, hxk] at this
      exact this.symm
    | none =>
      cases hyk : y.get? k with
      | none => rfl
      | some v =>
        obtain ⟨kv, hmem, hk⟩ := GoMap.get?_eq_some_mem hyk
        have := hy kv hmem
        rw [hk, hxk, hyk] at this
        exact this
  · intro h
    exact ⟨fun kv _ => (h kv.1).symm, fun kv _ => h kv.1⟩

theorem cmpDiff_eq_empty_iff (x y : RuleMap) : cmpDiff x y = "" ↔ cmpEqual x y = true := by
  unfold cmpDiff
  by_cases h : cmpEqual x y = true
  · simp [h]
  · simp only [h, if_false, iff_false, Bool.false_eq_true]
    intro e
    have := congrArg String.length e
    simp only [String.length_append] at this
    have h3 : "-+ ".length = 3 := by decide
    have h0 : "".length = 0 := by decide
    omega

theorem rulesChanged_eq_iff (current expected : List PolicyRule) :
    externalDNSRoleRulesChanged current expected = (false, "")
      ↔ ∀ k, inducedVerbs current k = inducedVerbs expected k := by
  have hd : cmpDiff (buildSortedPolicyRuleMap expected) (buildSortedPolicyRuleMap current) = ""
      ↔ ∀ k, inducedVerbs current k = inducedVerbs expected k := by
    rw [cmpDiff_eq_empty_iff, cmpEqual_iff]
    simp only [get?_buildSortedPolicyRuleMap]
    exact ⟨fun h k => (h k).symm, fun h k => (h k).symm⟩
  unfold externalDNSRoleRulesChanged
  simp only [ne_eq]
  rw [← hd]
  split <;> simp_all

theorem rulesChanged_fst_iff (current expected : List PolicyRule) :
    (externalDNSRoleRulesChanged current expected).1 = false
      ↔ ∀ k, inducedVerbs current k = inducedVerbs expected k := by
  rw [← rulesChanged_eq_iff]
  unfold externalDNSRoleRulesChanged
  simp only [ne_eq]
  split <;> simp

theorem rulesChanged_cases (current expected : List PolicyRule) :
    externalDNSRoleRulesChanged current expected = (false, "")
      ∨ (externalDNSRoleRulesChanged current expected).1 = true := by
  unfold externalDNSRoleRulesChanged
  simp only [ne_eq]
  split <;> simp

theorem rulesChanged_self (rules : List PolicyRule) :
    externalDNSRoleRulesChanged rules rules = (false, "") :=
  (rulesChanged_eq_iff rules rules).2 (fun _ => rfl)

theorem ruleKeys_perm {a b : PolicyRule} (h : RulePerm a b) (k : String) :
    k ∈ ruleKeys a ↔ k ∈ ruleKeys b := by
  unfold ruleKeys
  simp only [List.mem_flatMap, List.mem_map]
  constructor
  · rintro ⟨g, hg, r, hr, e⟩
    exact ⟨g, h.1.mem_iff.1 hg, r, h.2.1.mem_iff.1 hr, e⟩
  · rintro ⟨g, hg, r, hr, e⟩
    exact ⟨g, h.1.mem_iff.2 hg, r, h.2.1.mem_iff.2 hr, e⟩

theorem get?_foldl_setRule_perm {current desired : List PolicyRule}
    (h : List.Forall₂ RulePerm current desired) :
    ∀ (m m' : RuleMap), (∀ k, m.get? k = m'.get? k) →
      ∀ k, (current.foldl setRule m).get? k = (desired.foldl setRule m').get? k := by
  induction h with
  | nil => intro m m' hm k; exact hm k
  | @cons a b _ _ hab _ ih =>
    intro m m' hm k
    simp only [List.foldl_cons]
    apply ih
    intro k'
    rw [get?_setRule, get?_setRule, hm k', sortStrings_congr hab.2.2]
    by_cases hk : k' ∈ ruleKeys a
    · rw [if_pos hk, if_pos ((ruleKeys_perm hab k').1 hk)]
    · rw [if_neg hk, if_neg (fun h' => hk ((ruleKeys_perm hab k').2 h'))]

/-! ## The claims on the rule comparison -/

/-- C1: when `desired` is `current` with the api-groups, the resources and the
verbs permuted inside each rule (the rules kept in place), the comparison
reports no change and an empty reason. -/
theorem rulesChanged_order_insensitive (current desired : List PolicyRule)
    (h : List.Forall₂ RulePerm current desired) :
    externalDNSRoleRulesChanged current desired = (false, "") := by
  rw [rulesChanged_eq_iff]
  intro k
  rw [← get?_buildSortedPolicyRuleMap, ← get?_buildSortedPolicyRuleMap]
  exact get?_foldl_setRule_perm h [] [] (fun _ => rfl) k

/-- C1 at the documented input: verbs list, get against get, list. -/
theorem rulesChanged_order_insensitive_witness :
    List.Forall₂ RulePerm [⟨[""], ["secrets"], ["list", "get"]⟩]
        [⟨[""], ["secrets"], ["get", "list"]⟩]
      ∧ externalDNSRoleRulesChanged [⟨[""], ["secrets"], ["list", "get"]⟩]
        [⟨[""], ["secrets"], ["get", "list"]⟩] = (false, "") :=
  ⟨List.Forall₂.cons ⟨List.Perm.refl _, List.Perm.refl _, List.Perm.swap _ _ _⟩ List.Forall₂.nil,
   rulesChanged_order_insensitive _ _
    (List.Forall₂.cons ⟨List.Perm.refl _, List.Perm.refl _, List.Perm.swap _ _ _⟩
      List.Forall₂.nil)⟩

/-- C2 as stated fails: two rules on one pair carrying get and list compare as
changed against one rule carrying both, and verbs get, get compare as changed
against get, although each pair is granted the same set of verbs on both sides. -/
theorem rulesChanged_not_union_of_verbs :
    ¬ ((externalDNSRoleRulesChanged
          [⟨["g"], ["r"], ["get"]⟩, ⟨["g"], ["r"], ["list"]⟩]
          [⟨["g"], ["r"], ["get", "list"]⟩]).1 = false
        ↔ ∀ g r v, v ∈ grantedVerbs [⟨["g"], ["r"], ["get"]⟩, ⟨["g"], ["r"], ["list"]⟩] g r
            ↔ v ∈ grantedVerbs [⟨["g"], ["r"], ["get", "list"]⟩] g r)
    ∧ ¬ ((externalDNSRoleRulesChanged
          [⟨["g"], ["r"], ["get", "get"]⟩] [⟨["g"], ["r"], ["get"]⟩]).1 = false
        ↔ ∀ g r v, v ∈ grantedVerbs [⟨["g"], ["r"], ["get", "get"]⟩] g r
            ↔ v ∈ grantedVerbs [⟨["g"], ["r"], ["get"]⟩] g r) := by
  constructor
  · intro h
    have hr : ∀ g r v, v ∈ grantedVerbs [⟨["g"], ["r"], ["get"]⟩, ⟨["g"], ["r"], ["list"]⟩] g r
        ↔ v ∈ grantedVerbs [⟨["g"], ["r"], ["get", "list"]⟩] g r := by
      intro g r v
      by_cases hg : g = "g" <;> by_cases hr : r = "r" <;>
        simp [grantedVerbs, List.filter_cons, hg, hr]
    have := h.2 hr
    revert this
    decide
  · intro h
    have hr : ∀ g r v, v ∈ grantedVerbs [⟨["g"], ["r"], ["get", "get"]⟩] g r
        ↔ v ∈ grantedVerbs [⟨["g"], ["r"], ["get"]⟩] g r := by
      intro g r v
      by_cases hg : g = "g" <;> by_cases hr : r = "r" <;>
        simp [grantedVerbs, List.filter_cons, hg, hr]
    have := h.2 hr
    revert this
    decide

/-- C2, amended: the comparison reports no change exactly when both sides bind
every key "group/resource" to the same verbs, the verbs of a key being the
ascending list, duplicates kept, of the verbs of the last rule that writes it. -/
theorem rulesChanged_iff_same_last_sorted_verbs (current desired : List PolicyRule) :
    (externalDNSRoleRulesChanged current desired).1 = false
      ↔ ∀ key, inducedVerbs current key = inducedVerbs desired key :=
  rulesChanged_fst_iff current desired

/-! ## The claims on the cluster role binding -/

/-- C3 fails on the code: with current subjects external-dns-a, external-dns-b
and desired subjects external-dns-a, external-dns-b, external-dns-c the
comparison reports a change, yet the object handed to Update carries the
subjects of current, not those of desired. -/
theorem updateClusterRoleBinding_sends_current_subjects :
    (Rbac.externalDNSRoleBindingChanged sampleBindingAB sampleDesiredABC sampleBindingAB).1 = true
    ∧ (Rbac.externalDNSRoleBindingChanged sampleBindingAB sampleDesiredABC
        sampleBindingAB).2.2.Subjects = sampleBindingAB.Subjects
    ∧ (updateExternalDNSClusterRoleBinding (memClient ClusterRoleBinding.ObjectMeta id)
        { store := [sampleBindingAB], calls := [] } sampleBindingAB sampleDesiredABC).1.calls
        = [Call.update sampleBindingAB]
    ∧ sampleBindingAB.Subjects ≠ sampleDesiredABC.Subjects := by
  decide

/-- C5 fails on the code: from a store holding the binding with subjects
external-dns-a, external-dns-b, with external-dns-b and external-dns-c owned,
the first run issues an Update that leaves the stored subjects as they were,
and the second run issues the same Update again. -/
theorem ensureClusterRoleBinding_second_run_updates :
    writes (ensureExternalDNSClusterRoleBinding (memClient ClusterRoleBinding.ObjectMeta id)
        (memLister sampleOwnedBC) sampleNames
        { store := (ensureExternalDNSClusterRoleBinding
            (memClient ClusterRoleBinding.ObjectMeta id) (memLister sampleOwnedBC) sampleNames
            { store := [sampleBindingAB], calls := [] } "ns" sampleExternalDNS).1.store,
          calls := [] }
        "ns" sampleExternalDNS).1.calls
      = [Call.update sampleBindingAB] := by
  decide

/-- C9 fails on the code: on an empty store the binding is fetched under the
base name, created under the base name, and fetched again under the name of
the ExternalDNS resource; the call returns (false, nil, nil) although the
created binding is in the store under the base name. -/
theorem ensureClusterRoleBinding_refetch_other_name :
    (ensureExternalDNSClusterRoleBinding (memClient ClusterRoleBinding.ObjectMeta id)
        (memLister sampleOwnedBC) sampleNames { store := [], calls := [] } "ns"
        sampleExternalDNS).2 = (false, none, none)
    ∧ (ensureExternalDNSClusterRoleBinding (memClient ClusterRoleBinding.ObjectMeta id)
        (memLister sampleOwnedBC) sampleNames { store := [], calls := [] } "ns"
        sampleExternalDNS).1.calls
      = [Call.list "ns", Call.get ⟨"external-dns", ""⟩, Call.create sampleDesiredABC,
         Call.get ⟨"external-dns-a", ""⟩]
    ∧ (memClient ClusterRoleBinding.ObjectMeta id).Get
        (ensureExternalDNSClusterRoleBinding (memClient ClusterRoleBinding.ObjectMeta id)
          (memLister sampleOwnedBC) sampleNames { store := [], calls := [] } "ns"
          sampleExternalDNS).1.store ⟨"external-dns", ""⟩
      = .ok sampleDesiredABC :=
  ⟨by decide, by decide, rfl⟩

/-! ## The claims on the desired state -/

/-- C7: the rules of the desired cluster role are the two base rules, followed
by the rule on route.openshift.io routes exactly when the source type is the
Route source type; so a rule on that pair is present iff the source is Route. -/
theorem desiredClusterRole_route_rule_iff (N : Names) (externalDNS : ExternalDNS) :
    ((∃ rule ∈ (desiredExternalDNSClusterRole N externalDNS).Rules,
        "route.openshift.io" ∈ rule.APIGroups ∧ "routes" ∈ rule.Resources)
      ↔ externalDNS.SourceType = N.SourceTypeRoute)
    ∧ (desiredExternalDNSClusterRole N externalDNS).Rules
      = if externalDNS.SourceType = N.SourceTypeRoute then
          [⟨["networking.k8s.io"], ["ingresses"], ["get", "list", "watch"]⟩,
           ⟨[""], ["endpoints", "services", "pods", "nodes"], ["get", "list", "watch"]⟩,
           ⟨["route.openshift.io"], ["routes"], ["get", "watch", "list"]⟩]
        else
          [⟨["networking.k8s.io"], ["ingresses"], ["get", "list", "watch"]⟩,
           ⟨[""], ["endpoints", "services", "pods", "nodes"], ["get", "list", "watch"]⟩] := by
  unfold desiredExternalDNSClusterRole
  by_cases h : externalDNS.SourceType = N.SourceTypeRoute
  · simp [h]
  · simp [h]

/-! ## The claims on the role binding comparison -/

/-- C6: with equal role names, a first subject of the same name and another
namespace, and updated a copy of current, the comparison of role bindings
returns changed with the reason subject-namespace alone, and updated is
current with the namespace of its first subject set to the desired one. -/
theorem roleBindingChanged_namespace_only (current desired : RoleBinding)
    (c0 d0 : Subject) (crest drest : List Subject)
    (hc : current.Subjects = c0 :: crest) (hd : desired.Subjects = d0 :: drest)
    (hrole : current.RoleRef.Name = desired.RoleRef.Name)
    (hname : c0.Name = d0.Name) (hns : c0.Namespace ≠ d0.Namespace) :
    OperatorRbac.externalDNSRoleBindingChanged current desired current
      = some (true, "following fields changed: subject-namespace",
          { current with Subjects := { c0 with Namespace := d0.Namespace } :: crest }) := by
  unfold OperatorRbac.externalDNSRoleBindingChanged roleNameStep
  simp [hc, hd, hrole, hname, hns, OperatorRbac.setSubject0Namespace, changedReason]
  decide

/-- C6 at the documented input: subject X of namespace N1 against subject X of
namespace N2. -/
theorem roleBindingChanged_namespace_only_witness :
    OperatorRbac.externalDNSRoleBindingChanged
        ⟨metaOf "b" "n", ⟨GroupName, "Role", "b"⟩, [⟨ServiceAccountKind, "X", "N1"⟩]⟩
        ⟨metaOf "b" "n", ⟨GroupName, "Role", "b"⟩, [⟨ServiceAccountKind, "X", "N2"⟩]⟩
        ⟨metaOf "b" "n", ⟨GroupName, "Role", "b"⟩, [⟨ServiceAccountKind, "X", "N1"⟩]⟩
      = some (true, "following fields changed: subject-namespace",
          ⟨metaOf "b" "n", ⟨GroupName, "Role", "b"⟩, [⟨ServiceAccountKind, "X", "N2"⟩]⟩) :=
  roleBindingChanged_namespace_only _ _ ⟨ServiceAccountKind, "X", "N1"⟩
    ⟨ServiceAccountKind, "X", "N2"⟩ [] [] rfl rfl rfl rfl (by decide)

/-! ## The claims on the reconcilers over any client -/

/-- C10: in each of the four reconcilers, when the Get of the current object
fails with an error that is not a not-found error (for the cluster role
binding, after a List that succeeded), the call returns (false, nil, err), the
calls issued are the reads alone, and the store is left as it was. -/
theorem ensure_fetch_error_fails_fast (N : Names) (err : Error)
    (herr : IsNotFound err = false) :
    (∀ (σ : Type) (c : Client σ ClusterRole) (w : World σ ClusterRole)
        (externalDNS : ExternalDNS),
        c.Get w.store ⟨N.ExternalDNSGlobalResourceName, ""⟩ = .error err →
        ensureExternalDNSClusterRole c N w externalDNS
          = ({ store := w.store,
               calls := w.calls ++ [.get ⟨N.ExternalDNSGlobalResourceName, ""⟩] },
             false, none, some err))
    ∧ (∀ (σ : Type) (c : Client σ ClusterRoleBinding) (list : Lister σ)
        (w : World σ ClusterRoleBinding) (ns : String) (externalDNS : ExternalDNS)
        (items : List ServiceAccount),
        list w.store ns = .ok items →
        c.Get w.store ⟨N.ExternalDNSBaseName, ""⟩ = .error err →
        ensureExternalDNSClusterRoleBinding c list N w ns externalDNS
          = ({ store := w.store,
               calls := w.calls ++ [.list ns] ++ [.get ⟨N.ExternalDNSBaseName, ""⟩] },
             false, none, some err))
    ∧ (∀ (σ : Type) (rulesChanged : RulesComparison) (c : Client σ Role) (w : World σ Role)
        (ns : String),
        c.Get w.store ⟨N.ServiceAccountName, ns⟩ = .error err →
        ensureOperatorRoleInExternalDNSNS rulesChanged c N w ns
          = ({ store := w.store, calls := w.calls ++ [.get ⟨N.ServiceAccountName, ns⟩] },
             false, none, some err))
    ∧ (∀ (σ : Type) (c : Client σ RoleBinding) (w : World σ RoleBinding)
        (ns operatorNamespace : String),
        c.Get w.store ⟨N.ServiceAccountName, ns⟩ = .error err →
        ensureOperatorRoleBindingInExternalDNSNS c N w ns operatorNamespace
          = some ({ store := w.store, calls := w.calls ++ [.get ⟨N.ServiceAccountName, ns⟩] },
             false, none, some err)) := by
  refine ⟨?_, ?_, ?_, ?_⟩
  · intro σ c w externalDNS hget
    simp [ensureExternalDNSClusterRole, currentExternalDNSClusterRole, currentObject, hget, herr]
  · intro σ c list w ns externalDNS items hlist hget
    simp [ensureExternalDNSClusterRoleBinding, currentExtDNSOwnedServiceAccounts,
      currentExternalDNSClusterRoleBinding, currentObject, hlist, hget, herr]
  · intro σ rulesChanged c w ns hget
    simp [ensureOperatorRoleInExternalDNSNS, currentOperatorRoleInExternalDNSNS, currentObject,
      hget, herr]
  · intro σ c w ns operatorNamespace hget
    simp [ensureOperatorRoleBindingInExternalDNSNS, currentOperatorRoleBindingInExternalDNSNS,
      currentObject, hget, herr]

/-- C10 on a client whose Get fails with a timeout. -/
theorem ensure_fetch_error_fails_fast_witness :
    IsNotFound (.other "timeout") = false
    ∧ ensureExternalDNSClusterRole (failingClient (.other "timeout")) sampleNames
        ({ store := (), calls := [] } : World Unit ClusterRole) sampleExternalDNS
      = ({ store := (), calls := [] ++ [.get ⟨"external-dns", ""⟩] },
         false, none, some (.other "timeout"))
    ∧ ensureExternalDNSClusterRoleBinding (failingClient (.other "timeout"))
        (memLister sampleOwnedBC) sampleNames
        ({ store := (), calls := [] } : World Unit ClusterRoleBinding) "ns" sampleExternalDNS
      = ({ store := (), calls := [] ++ [.list "ns"] ++ [.get ⟨"external-dns", ""⟩] },
         false, none, some (.other "timeout"))
    ∧ ensureOperatorRoleInExternalDNSNS externalDNSRoleRulesChanged
        (failingClient (.other "timeout")) sampleNames
        ({ store := (), calls := [] } : World Unit Role) "ns"
      = ({ store := (), calls := [] ++ [.get ⟨"external-dns-operator", "ns"⟩] },
         false, none, some (.other "timeout"))
    ∧ ensureOperatorRoleBindingInExternalDNSNS (failingClient (.other "timeout")) sampleNames
        ({ store := (), calls := [] } : World Unit RoleBinding) "ns" "operator-ns"
      = some ({ store := (), calls := [] ++ [.get ⟨"external-dns-operator", "ns"⟩] },
         false, none, some (.other "timeout")) :=
  ⟨rfl,
   (ensure_fetch_error_fails_fast sampleNames (.other "timeout") rfl).1 Unit _ _ _ rfl,
   (ensure_fetch_error_fails_fast sampleNames (.other "timeout") rfl).2.1 Unit _ _ _ _ _
      sampleOwnedBC rfl rfl,
   (ensure_fetch_error_fails_fast sampleNames (.other "timeout") rfl).2.2.1 Unit _ _ _ _ rfl,
   (ensure_fetch_error_fails_fast sampleNames (.other "timeout") rfl).2.2.2 Unit _ _ _ _ rfl⟩

/-- C8: in the role, role binding and cluster role reconcilers, when the
first Get reports not-found and the Create and the Get that follows succeed,
the call returns (true, obj, nil) with obj the object of that second Get; the
second Get uses the key of the first, which is the name and namespace of the
created object (for the cluster role: as the global resource name is the base
name). -/
theorem ensure_create_then_refetch (N : Names)
    (hN : N.ExternalDNSGlobalResourceName = N.ExternalDNSBaseName) :
    (∀ (σ : Type) (rulesChanged : RulesComparison) (c : Client σ Role) (w : World σ Role)
        (ns : String) (err : Error) (s2 : σ) (obj : Role),
        c.Get w.store ⟨N.ServiceAccountName, ns⟩ = .error err → IsNotFound err = true →
        c.Create w.store (desiredOperatorRole ⟨N.ServiceAccountName, ns⟩) = (s2, none) →
        c.Get s2 ⟨N.ServiceAccountName, ns⟩ = .ok obj →
        ensureOperatorRoleInExternalDNSNS rulesChanged c N w ns
          = ({ store := s2,
               calls := w.calls ++ [.get ⟨N.ServiceAccountName, ns⟩]
                 ++ [.create (desiredOperatorRole ⟨N.ServiceAccountName, ns⟩)]
                 ++ [.get ⟨N.ServiceAccountName, ns⟩] },
             true, some obj, none)
        ∧ (desiredOperatorRole ⟨N.ServiceAccountName, ns⟩).ObjectMeta.Name
            = N.ServiceAccountName
        ∧ (desiredOperatorRole ⟨N.ServiceAccountName, ns⟩).ObjectMeta.Namespace = ns)
    ∧ (∀ (σ : Type) (c : Client σ RoleBinding) (w : World σ RoleBinding)
        (ns operatorNamespace : String) (err : Error) (s2 : σ) (obj : RoleBinding),
        c.Get w.store ⟨N.ServiceAccountName, ns⟩ = .error err → IsNotFound err = true →
        c.Create w.store
            (desiredOperatorRoleBinding N ⟨N.ServiceAccountName, ns⟩ operatorNamespace)
          = (s2, none) →
        c.Get s2 ⟨N.ServiceAccountName, ns⟩ = .ok obj →
        ensureOperatorRoleBindingInExternalDNSNS c N w ns operatorNamespace
          = some ({ store := s2,
                    calls := w.calls ++ [.get ⟨N.ServiceAccountName, ns⟩]
                      ++ [.create (desiredOperatorRoleBinding N ⟨N.ServiceAccountName, ns⟩
                            operatorNamespace)]
                      ++ [.get ⟨N.ServiceAccountName, ns⟩] },
                  true, some obj, none)
        ∧ (desiredOperatorRoleBinding N ⟨N.ServiceAccountName, ns⟩
            operatorNamespace).ObjectMeta.Name = N.ServiceAccountName
        ∧ (desiredOperatorRoleBinding N ⟨N.ServiceAccountName, ns⟩
            operatorNamespace).ObjectMeta.Namespace = ns)
    ∧ (∀ (σ : Type) (c : Client σ ClusterRole) (w : World σ ClusterRole)
        (externalDNS : ExternalDNS) (err : Error) (s2 : σ) (obj : ClusterRole),
        c.Get w.store ⟨N.ExternalDNSGlobalResourceName, ""⟩ = .error err →
        IsNotFound err = true →
        c.Create w.store (desiredExternalDNSClusterRole N externalDNS) = (s2, none) →
        c.Get s2 ⟨N.ExternalDNSGlobalResourceName, ""⟩ = .ok obj →
        ensureExternalDNSClusterRole c N w externalDNS
          = ({ store := s2,
               calls := w.calls ++ [.get ⟨N.ExternalDNSGlobalResourceName, ""⟩]
                 ++ [.create (desiredExternalDNSClusterRole N externalDNS)]
                 ++ [.get ⟨N.ExternalDNSGlobalResourceName, ""⟩] },
             true, some obj, none)
        ∧ (desiredExternalDNSClusterRole N externalDNS).ObjectMeta.Name
            = N.ExternalDNSGlobalResourceName
        ∧ (desiredExternalDNSClusterRole N externalDNS).ObjectMeta.Namespace = "") := by
  refine ⟨?_, ?_, ?_⟩
  · intro σ rulesChanged c w ns err s2 obj hget herr hcreate hget2
    refine ⟨?_, rfl, rfl⟩
    simp [ensureOperatorRoleInExternalDNSNS, currentOperatorRoleInExternalDNSNS,
      createOperatorRoleInExternalDNSNS, currentObject, createObject, hget, herr, hcreate, hget2]
  · intro σ c w ns operatorNamespace err s2 obj hget herr hcreate hget2
    refine ⟨?_, rfl, rfl⟩
    simp [ensureOperatorRoleBindingInExternalDNSNS, currentOperatorRoleBindingInExternalDNSNS,
      createOperatorRoleBindingInExternalDNSNS, currentObject, createObject, hget, herr, hcreate,
      hget2]
  · intro σ c w externalDNS err s2 obj hget herr hcreate hget2
    refine ⟨?_, ?_, rfl⟩
    · simp [ensureExternalDNSClusterRole, currentExternalDNSClusterRole,
        createExternalDNSClusterRole, currentObject, createObject, hget, herr, hcreate, hget2]
    · rw [hN]; rfl

/-- C8 on stores that assign a resource version on write: the object returned
is the stored one, which differs from the desired object that was built. -/
theorem ensure_create_then_refetch_witness :
    sampleNames.ExternalDNSGlobalResourceName = sampleNames.ExternalDNSBaseName
    ∧ (ensureOperatorRoleInExternalDNSNS externalDNSRoleRulesChanged stampingRoles sampleNames
          { store := [], calls := [] } "ns"
        = ({ store := [sampleStoredRole],
             calls := [] ++ [.get ⟨"external-dns-operator", "ns"⟩]
               ++ [.create (desiredOperatorRole ⟨"external-dns-operator", "ns"⟩)]
               ++ [.get ⟨"external-dns-operator", "ns"⟩] },
           true, some sampleStoredRole, none)
      ∧ (desiredOperatorRole ⟨"external-dns-operator", "ns"⟩).ObjectMeta.Name
          = "external-dns-operator"
      ∧ (desiredOperatorRole ⟨"external-dns-operator", "ns"⟩).ObjectMeta.Namespace = "ns")
    ∧ sampleStoredRole ≠ desiredOperatorRole ⟨"external-dns-operator", "ns"⟩
    ∧ (ensureOperatorRoleBindingInExternalDNSNS stampingRoleBindings sampleNames
          { store := [], calls := [] } "ns" "operator-ns"
        = some ({ store := [sampleStoredRoleBinding],
                  calls := [] ++ [.get ⟨"external-dns-operator", "ns"⟩]
                    ++ [.create (desiredOperatorRoleBinding sampleNames
                          ⟨"external-dns-operator", "ns"⟩ "operator-ns")]
                    ++ [.get ⟨"external-dns-operator", "ns"⟩] },
                true, some sampleStoredRoleBinding, none)
      ∧ (desiredOperatorRoleBinding sampleNames ⟨"external-dns-operator", "ns"⟩
          "operator-ns").ObjectMeta.Name = "external-dns-operator"
      ∧ (desiredOperatorRoleBinding sampleNames ⟨"external-dns-operator", "ns"⟩
          "operator-ns").ObjectMeta.Namespace = "ns")
    ∧ (ensureExternalDNSClusterRole stampingClusterRoles sampleNames
          { store := [], calls := [] } sampleExternalDNS
        = ({ store := [sampleStoredClusterRole],
             calls := [] ++ [.get ⟨"external-dns", ""⟩]
               ++ [.create (desiredExternalDNSClusterRole sampleNames sampleExternalDNS)]
               ++ [.get ⟨"external-dns", ""⟩] },
           true, some sampleStoredClusterRole, none)
      ∧ (desiredExternalDNSClusterRole sampleNames sampleExternalDNS).ObjectMeta.Name
          = "external-dns"
      ∧ (desiredExternalDNSClusterRole sampleNames sampleExternalDNS).ObjectMeta.Namespace = "") :=
  ⟨rfl,
   (ensure_create_then_refetch sampleNames rfl).1 (List Role) externalDNSRoleRulesChanged
      stampingRoles { store := [], calls := [] } "ns" (.notFound "external-dns-operator")
      [sampleStoredRole] sampleStoredRole rfl rfl rfl rfl,
   by decide,
   (ensure_create_then_refetch sampleNames rfl).2.1 (List RoleBinding)
      stampingRoleBindings { store := [], calls := [] } "ns" "operator-ns"
      (.notFound "external-dns-operator") [sampleStoredRoleBinding] sampleStoredRoleBinding
      rfl rfl rfl rfl,
   (ensure_create_then_refetch sampleNames rfl).2.2 (List ClusterRole)
      stampingClusterRoles { store := [], calls := [] } sampleExternalDNS
      (.notFound "external-dns") [sampleStoredClusterRole] sampleStoredClusterRole
      rfl rfl rfl rfl⟩

/-! ## The claims on the reconcilers over the last-write store -/

theorem ensureClusterRole_mem_settled (N : Names) (externalDNS : ExternalDNS)
    (s : List ClusterRole) (cs : List (Call ClusterRole)) (h : ClusterRole)
    (hkey : keyMatches h.ObjectMeta ⟨N.ExternalDNSGlobalResourceName, ""⟩ = true)
    (hrules : h.Rules = (desiredExternalDNSClusterRole N externalDNS).Rules) :
    ensureExternalDNSClusterRole (memClient ClusterRole.ObjectMeta id) N
        { store := h :: s, calls := cs } externalDNS
      = ({ store := h :: s, calls := cs ++ [.get ⟨N.ExternalDNSGlobalResourceName, ""⟩] },
         true, some h, none) := by
  have hr := rulesChanged_self (desiredExternalDNSClusterRole N externalDNS).Rules
  simp [ensureExternalDNSClusterRole, currentExternalDNSClusterRole, currentObject, memClient,
    List.find?_cons, hkey, updateExternalDNSClusterRole, hrules, hr]

theorem ensureClusterRole_mem_store (N : Names)
    (hN : N.ExternalDNSGlobalResourceName = N.ExternalDNSBaseName) (externalDNS : ExternalDNS)
    (s : List ClusterRole) :
    (writes (ensureExternalDNSClusterRole (memClient ClusterRole.ObjectMeta id) N
        { store := s, calls := [] } externalDNS).1.calls = []
      ∧ (ensureExternalDNSClusterRole (memClient ClusterRole.ObjectMeta id) N
        { store := s, calls := [] } externalDNS).1.store = s)
    ∨ ∃ h : ClusterRole,
        (ensureExternalDNSClusterRole (memClient ClusterRole.ObjectMeta id) N
          { store := s, calls := [] } externalDNS).1.store = h :: s
        ∧ keyMatches h.ObjectMeta ⟨N.ExternalDNSGlobalResourceName, ""⟩ = true
        ∧ h.Rules = (desiredExternalDNSClusterRole N externalDNS).Rules := by
  cases hfind : s.find?
      (fun o => keyMatches o.ObjectMeta ⟨N.ExternalDNSGlobalResourceName, ""⟩) with
  | none =>
    right
    refine ⟨desiredExternalDNSClusterRole N externalDNS, ?_, ?_, rfl⟩
    · have hk : keyMatches (desiredExternalDNSClusterRole N externalDNS).ObjectMeta
          ⟨N.ExternalDNSGlobalResourceName, ""⟩ = true := by
        simp [desiredExternalDNSClusterRole, keyMatches, metaOf, hN]
      simp [ensureExternalDNSClusterRole, currentExternalDNSClusterRole, currentObject, memClient,
        hfind, IsNotFound, createExternalDNSClusterRole, createObject, List.find?_cons, hk]
    · simp [desiredExternalDNSClusterRole, keyMatches, metaOf, hN]
  | some cur =>
    have hkey := List.find?_some hfind
    rcases rulesChanged_cases cur.Rules (desiredExternalDNSClusterRole N externalDNS).Rules
      with hr | hr
    · left
      simp [ensureExternalDNSClusterRole, currentExternalDNSClusterRole, currentObject, memClient,
        hfind, updateExternalDNSClusterRole, hr, writes, Call.isWrite]
    · right
      refine ⟨{ cur with Rules := (desiredExternalDNSClusterRole N externalDNS).Rules },
        ?_, hkey, rfl⟩
      simp [ensureExternalDNSClusterRole, currentExternalDNSClusterRole, currentObject, memClient,
        hfind, updateExternalDNSClusterRole, updateObject, hr, List.find?_cons, hkey]

theorem ensureOperatorRole_mem_settled (N : Names) (ns : String)
    (s : List Role) (cs : List (Call Role)) (h : Role)
    (hkey : keyMatches h.ObjectMeta ⟨N.ServiceAccountName, ns⟩ = true)
    (hrules : h.Rules = (desiredOperatorRole ⟨N.ServiceAccountName, ns⟩).Rules) :
    ensureOperatorRoleInExternalDNSNS externalDNSRoleRulesChanged
        (memClient Role.ObjectMeta id) N
        { store := h :: s, calls := cs } ns
      = ({ store := h :: s, calls := cs ++ [.get ⟨N.ServiceAccountName, ns⟩] },
         true, some h, none) := by
  have hr := rulesChanged_self (desiredOperatorRole ⟨N.ServiceAccountName, ns⟩).Rules
  simp [ensureOperatorRoleInExternalDNSNS, currentOperatorRoleInExternalDNSNS, currentObject, memClient,
    List.find?_cons, hkey, updateOperatorRoleInExternalDNSNS, hrules, hr]

theorem ensureOperatorRole_mem_store (N : Names) (ns : String)
    (s : List Role) :
    (writes (ensureOperatorRoleInExternalDNSNS externalDNSRoleRulesChanged
        (memClient Role.ObjectMeta id) N
        { store := s, calls := [] } ns).1.calls = []
      ∧ (ensureOperatorRoleInExternalDNSNS externalDNSRoleRulesChanged
        (memClient Role.ObjectMeta id) N
        { store := s, calls := [] } ns).1.store = s)
    ∨ ∃ h : Role,
        (ensureOperatorRoleInExternalDNSNS externalDNSRoleRulesChanged
        (memClient Role.ObjectMeta id) N
          { store := s, calls := [] } ns).1.store = h :: s
        ∧ keyMatches h.ObjectMeta ⟨N.ServiceAccountName, ns⟩ = true
        ∧ h.Rules = (desiredOperatorRole ⟨N.ServiceAccountName, ns⟩).Rules := by
  cases hfind : s.find?
      (fun o => keyMatches o.ObjectMeta ⟨N.ServiceAccountName, ns⟩) with
  | none =>
    right
    refine ⟨desiredOperatorRole ⟨N.ServiceAccountName, ns⟩, ?_, ?_, rfl⟩
    · have hk : keyMatches (desiredOperatorRole ⟨N.ServiceAccountName, ns⟩).ObjectMeta
          ⟨N.ServiceAccountName, ns⟩ = true := by
        simp [desiredOperatorRole, keyMatches, metaOf]
      simp [ensureOperatorRoleInExternalDNSNS, currentOperatorRoleInExternalDNSNS, currentObject, memClient,
        hfind, IsNotFound, createOperatorRoleInExternalDNSNS, createObject, List.find?_cons, hk]
    · simp [desiredOperatorRole, keyMatches, metaOf]
  | some cur =>
    have hkey := List.find?_some hfind
    rcases rulesChanged_cases cur.Rules (desiredOperatorRole ⟨N.ServiceAccountName, ns⟩).Rules
      with hr | hr
    · left
      simp [ensureOperatorRoleInExternalDNSNS, currentOperatorRoleInExternalDNSNS, currentObject, memClient,
        hfind, updateOperatorRoleInExternalDNSNS, hr, writes, Call.isWrite]
    · right
      refine ⟨{ cur with Rules := (desiredOperatorRole ⟨N.ServiceAccountName, ns⟩).Rules },
        ?_, hkey, rfl⟩
      simp [ensureOperatorRoleInExternalDNSNS, currentOperatorRoleInExternalDNSNS, currentObject, memClient,
        hfind, updateOperatorRoleInExternalDNSNS, updateObject, hr, List.find?_cons, hkey]


/-- C4: over the store in which Get returns the object last written under a
key and every Create and Update succeeds, a second run of the cluster role
reconciler, and of the operator role reconciler with rulesChanged read as
externalDNSRoleRulesChanged, on the store the first run left and with the same
inputs, issues no Create and no Update (for the cluster role: as the global
resource name is the base name). -/
theorem ensure_rules_second_run_writes_nothing (N : Names)
    (hN : N.ExternalDNSGlobalResourceName = N.ExternalDNSBaseName) :
    (∀ (s : List ClusterRole) (externalDNS : ExternalDNS),
        writes (ensureExternalDNSClusterRole (memClient ClusterRole.ObjectMeta id) N
          { store := (ensureExternalDNSClusterRole (memClient ClusterRole.ObjectMeta id) N
              { store := s, calls := [] } externalDNS).1.store,
            calls := [] } externalDNS).1.calls = [])
    ∧ (∀ (s : List Role) (ns : String),
        writes (ensureOperatorRoleInExternalDNSNS externalDNSRoleRulesChanged
          (memClient Role.ObjectMeta id) N
          { store := (ensureOperatorRoleInExternalDNSNS externalDNSRoleRulesChanged
              (memClient Role.ObjectMeta id) N { store := s, calls := [] } ns).1.store,
            calls := [] } ns).1.calls = []) := by
  constructor
  · intro s externalDNS
    rcases ensureClusterRole_mem_store N hN externalDNS s with ⟨hw, hs⟩ | ⟨h, hs, hkey, hrules⟩
    · rw [hs]; exact hw
    · rw [hs, ensureClusterRole_mem_settled N externalDNS s [] h hkey hrules]
      rfl
  · intro s ns
    rcases ensureOperatorRole_mem_store N ns s with ⟨hw, hs⟩ | ⟨h, hs, hkey, hrules⟩
    · rw [hs]; exact hw
    · rw [hs, ensureOperatorRole_mem_settled N ns s [] h hkey hrules]
      rfl

/-- C4 on stores holding a cluster role, and an operator role, whose rules
have drifted: the first run rewrites the rules, the second run writes nothing. -/
theorem ensure_rules_second_run_writes_nothing_witness :
    sampleNames.ExternalDNSGlobalResourceName = sampleNames.ExternalDNSBaseName
    ∧ writes (ensureExternalDNSClusterRole (memClient ClusterRole.ObjectMeta id) sampleNames
        { store := (ensureExternalDNSClusterRole (memClient ClusterRole.ObjectMeta id)
            sampleNames { store := [sampleDriftedClusterRole], calls := [] }
            sampleExternalDNS).1.store,
          calls := [] } sampleExternalDNS).1.calls = []
    ∧ writes (ensureOperatorRoleInExternalDNSNS externalDNSRoleRulesChanged
        (memClient Role.ObjectMeta id) sampleNames
        { store := (ensureOperatorRoleInExternalDNSNS externalDNSRoleRulesChanged
            (memClient Role.ObjectMeta id) sampleNames
            { store := [sampleDriftedRole], calls := [] } "ns").1.store,
          calls := [] } "ns").1.calls = [] :=
  ⟨rfl,
   (ensure_rules_second_run_writes_nothing sampleNames rfl).1 [sampleDriftedClusterRole]
      sampleExternalDNS,
   (ensure_rules_second_run_writes_nothing sampleNames rfl).2 [sampleDriftedRole] "ns"⟩

/-! ## Lemmas on the binding comparison and the rule map keys -/

theorem subjects_foldl (p ns : String) (owned : List String) (rb : ClusterRoleBinding) :
    (owned.foldl
      (fun rb sa =>
        if sa ≠ p then
          { rb with Subjects := rb.Subjects ++
              [{ Kind := ServiceAccountKind, Name := sa, Namespace := ns }] }
        else rb) rb).Subjects
      = rb.Subjects ++ (owned.filter (fun sa => decide (sa ≠ p))).map
          (fun sa => ({ Kind := ServiceAccountKind, Name := sa, Namespace := ns } : Subject)) := by
  induction owned generalizing rb with
  | nil => simp
  | cons sa owned ih =>
    rw [List.foldl_cons, ih]
    by_cases h : sa = p
    · simp [h]
    · simp [h, List.filter_cons]

theorem isSome_get?_currentSubjects_foldl (subjects : List Subject) (m : GoMap Subject)
    (k : String) :
    ((subjects.foldl (fun m subject => m.set (subject.Name ++ "-" ++ subject.Namespace) subject)
        m).get? k).isSome = true
      ↔ (m.get? k).isSome = true ∨ ∃ s ∈ subjects, subjectKey s = k := by
  induction subjects generalizing m with
  | nil => simp
  | cons s subjects ih =>
    rw [List.foldl_cons, ih, GoMap.get?_set]
    by_cases h : k = s.Name ++ "-" ++ s.Namespace
    · simp [h, subjectKey]
    · have h' : ¬ subjectKey s = k := fun e => h (by rw [← e]; rfl)
      simp [h, h']

theorem get?_currentSubjects_eq_none (subjects : List Subject) (k : String) :
    (Rbac.currentSubjects subjects).get? k = none ↔ ∀ s ∈ subjects, subjectKey s ≠ k := by
  have h : ((Rbac.currentSubjects subjects).get? k).isSome = true
      ↔ (GoMap.get? ([] : GoMap Subject) k).isSome = true ∨ ∃ s ∈ subjects, subjectKey s = k :=
    isSome_get?_currentSubjects_foldl subjects [] k
  have h0 : GoMap.get? ([] : GoMap Subject) k = none := rfl
  rw [h0] at h
  cases hg : (Rbac.currentSubjects subjects).get? k with
  | none =>
    rw [hg] at h
    simp only [Option.isSome_none, Bool.false_eq_true, false_iff, not_or, not_exists, not_and] at h
    exact ⟨fun _ s hs => h.2 s hs, fun _ => rfl⟩
  | some v =>
    rw [hg] at h
    simp only [Option.isSome_some, true_iff, Option.isSome_none, Bool.false_eq_true,
      false_or] at h
    obtain ⟨s, hs, e⟩ := h
    exact ⟨fun hn => Option.noConfusion hn, fun hall => absurd e (hall s hs)⟩

theorem subjectsStep_fst (index : GoMap Subject) (desired : List Subject)
    (acc : Bool × List String) :
    (Rbac.subjectsStep index desired acc).1 = true
      ↔ acc.1 = true ∨ ∃ d ∈ desired, index.get? (subjectKey d) = none := by
  unfold Rbac.subjectsStep
  induction desired generalizing acc with
  | nil => simp
  | cons d desired ih =>
    rw [List.foldl_cons, ih]
    cases hg : index.get? (d.Name ++ "-" ++ d.Namespace) with
    | none =>
      have : index.get? (subjectKey d) = none := hg
      simp [this]
    | some v =>
      have : index.get? (subjectKey d) = some v := hg
      simp [this]

theorem Rbac.changed_iff (current desired updated : ClusterRoleBinding) :
    (Rbac.externalDNSRoleBindingChanged current desired updated).1 = true
      ↔ current.RoleRef.Name ≠ desired.RoleRef.Name
        ∨ (current.Subjects ≠ []
            ∧ ∃ d ∈ desired.Subjects, ∀ c ∈ current.Subjects, subjectKey c ≠ subjectKey d) := by
  unfold Rbac.externalDNSRoleBindingChanged roleNameStep
  cases hs : current.Subjects with
  | nil =>
    by_cases hr : current.RoleRef.Name = desired.RoleRef.Name <;> simp [hr]
  | cons c cs =>
    simp only [List.length_cons, Nat.zero_lt_succ, if_true, subjectsStep_fst,
      get?_currentSubjects_eq_none]
    by_cases hr : current.RoleRef.Name = desired.RoleRef.Name <;> simp [hr]

theorem inducedVerbs_isSome (rules : List PolicyRule) (k : String) :
    (inducedVerbs rules k).isSome = true ↔ k ∈ rules.flatMap ruleKeys := by
  unfold inducedVerbs lastRuleFor
  rw [Option.isSome_map', List.find?_isSome]
  simp only [List.mem_reverse, decide_eq_true_eq, List.mem_flatMap]

theorem mem_ruleKeys_of_pairOccurs {rules : List PolicyRule} {g r : String}
    (h : pairOccurs rules g r = true) : g ++ "/" ++ r ∈ rules.flatMap ruleKeys := by
  unfold pairOccurs at h
  simp only [List.any_eq_true, Bool.and_eq_true, decide_eq_true_eq] at h
  obtain ⟨rule, hrule, hg, hr⟩ := h
  simp only [List.mem_flatMap, ruleKeys, List.mem_map]
  exact ⟨rule, hrule, g, hg, r, hr, rfl⟩

theorem rulesChanged_reason_ne_empty (current expected : List PolicyRule)
    (h : (externalDNSRoleRulesChanged current expected).1 = true) :
    (externalDNSRoleRulesChanged current expected).2 ≠ "" := by
  unfold externalDNSRoleRulesChanged at h ⊢
  simp only [ne_eq] at h ⊢
  split
  · intro e
    have := congrArg String.length e
    simp only [String.length_append] at this
    have h3 : "diff found in the policy rules: ".length = 32 := by decide
    have h0 : "".length = 0 := by decide
    omega
  · rename_i hd
    rw [if_neg hd] at h
    cases h

theorem GoMap.mem_keys_iff {β : Type} (m : GoMap β) (k : String) :
    k ∈ m.map Prod.fst ↔ (m.get? k).isSome = true := by
  unfold GoMap.get?
  rw [Option.isSome_map', List.find?_isSome]
  simp only [List.mem_map, beq_iff_eq]

theorem GoMap.nodup_keys_set {β : Type} (m : GoMap β) (k : String) (v : β)
    (h : (m.map Prod.fst).Nodup) : ((m.set k v).map Prod.fst).Nodup := by
  unfold GoMap.set
  rw [List.map_cons, List.nodup_cons]
  constructor
  · simp
  · exact (h.sublist ((List.filter_sublist m).map Prod.fst))

theorem nodup_keys_setResources (rule : PolicyRule) (g : String) (m : RuleMap)
    (h : (m.map Prod.fst).Nodup) : ((setResources rule g m).map Prod.fst).Nodup := by
  unfold setResources
  generalize rule.Resources = rs
  induction rs generalizing m with
  | nil => exact h
  | cons r rs ih => exact ih _ (GoMap.nodup_keys_set m _ _ h)

theorem nodup_keys_setRule (m : RuleMap) (rule : PolicyRule)
    (h : (m.map Prod.fst).Nodup) : ((setRule m rule).map Prod.fst).Nodup := by
  unfold setRule
  generalize rule.APIGroups = gs
  induction gs generalizing m with
  | nil => exact h
  | cons g gs ih => exact ih _ (nodup_keys_setResources rule g m h)

theorem nodup_keys_buildSortedPolicyRuleMap (rules : List PolicyRule) :
    ((buildSortedPolicyRuleMap rules).map Prod.fst).Nodup := by
  unfold buildSortedPolicyRuleMap
  have : ∀ (m : RuleMap), (m.map Prod.fst).Nodup → ((rules.foldl setRule m).map Prod.fst).Nodup := by
    induction rules with
    | nil => exact fun m h => h
    | cons rule rules ih => exact fun m h => ih _ (nodup_keys_setRule m rule h)
  exact this [] List.nodup_nil

theorem lastRuleFor_eq_some_iff (rules : List PolicyRule) (k : String) (rule : PolicyRule) :
    lastRuleFor rules k = some rule
      ↔ k ∈ ruleKeys rule
        ∧ ∃ pre post, rules = pre ++ rule :: post ∧ ∀ later ∈ post, k ∉ ruleKeys later := by
  unfold lastRuleFor
  rw [List.find?_eq_some]
  simp only [decide_eq_true_eq, Bool.not_eq_true', decide_eq_false_iff_not]
  constructor
  · rintro ⟨hk, as, bs, e, hall⟩
    refine ⟨hk, bs.reverse, as.reverse, ?_, fun later hl => hall later (List.mem_reverse.1 hl)⟩
    have := congrArg List.reverse e
    simpa using this
  · rintro ⟨hk, pre, post, e, hall⟩
    refine ⟨hk, post.reverse, pre.reverse, ?_, fun a ha => hall a (List.mem_reverse.1 ha)⟩
    rw [e]; simp

/-! ## The claims on update failure and on the rule rewrite -/

/-- C11: in each of the four reconcilers, when the object is present, the
comparison reports a change and the Update fails, the call returns
(true, current, err) with current the object of the initial Get, and the calls
issued end with the Update: no second Get follows. -/
theorem ensure_update_error_keeps_current (N : Names) (err : Error) :
    (∀ (σ : Type) (c : Client σ ClusterRole) (w : World σ ClusterRole)
        (externalDNS : ExternalDNS) (current : ClusterRole) (s2 : σ),
        c.Get w.store ⟨N.ExternalDNSGlobalResourceName, ""⟩ = .ok current →
        (externalDNSRoleRulesChanged current.Rules
          (desiredExternalDNSClusterRole N externalDNS).Rules).1 = true →
        c.Update w.store
            { current with Rules := (desiredExternalDNSClusterRole N externalDNS).Rules }
          = (s2, some err) →
        ensureExternalDNSClusterRole c N w externalDNS
          = ({ store := s2,
               calls := w.calls ++ [.get ⟨N.ExternalDNSGlobalResourceName, ""⟩]
                 ++ [.update { current with
                      Rules := (desiredExternalDNSClusterRole N externalDNS).Rules }] },
             true, some current, some err))
    ∧ (∀ (σ : Type) (c : Client σ ClusterRoleBinding) (list : Lister σ)
        (w : World σ ClusterRoleBinding) (ns : String) (externalDNS : ExternalDNS)
        (items : List ServiceAccount) (current : ClusterRoleBinding) (s2 : σ),
        list w.store ns = .ok items →
        c.Get w.store ⟨N.ExternalDNSBaseName, ""⟩ = .ok current →
        (Rbac.externalDNSRoleBindingChanged current
          (desiredExternalDNSClusterRoleBinding N ns externalDNS
            (currentExtDNSOwnedServiceAccounts list w ns).2.1) current).1 = true →
        c.Update w.store
            (Rbac.externalDNSRoleBindingChanged current
              (desiredExternalDNSClusterRoleBinding N ns externalDNS
                (currentExtDNSOwnedServiceAccounts list w ns).2.1) current).2.2
          = (s2, some err) →
        ensureExternalDNSClusterRoleBinding c list N w ns externalDNS
          = ({ store := s2,
               calls := w.calls ++ [.list ns] ++ [.get ⟨N.ExternalDNSBaseName, ""⟩]
                 ++ [.update (Rbac.externalDNSRoleBindingChanged current
                      (desiredExternalDNSClusterRoleBinding N ns externalDNS
                        (currentExtDNSOwnedServiceAccounts list w ns).2.1) current).2.2] },
             true, some current, some err))
    ∧ (∀ (σ : Type) (rulesChanged : RulesComparison) (c : Client σ Role) (w : World σ Role)
        (ns : String) (current : Role) (s2 : σ),
        c.Get w.store ⟨N.ServiceAccountName, ns⟩ = .ok current →
        (rulesChanged current.Rules (desiredOperatorRole ⟨N.ServiceAccountName, ns⟩).Rules).1
          = true →
        c.Update w.store
            { current with Rules := (desiredOperatorRole ⟨N.ServiceAccountName, ns⟩).Rules }
          = (s2, some err) →
        ensureOperatorRoleInExternalDNSNS rulesChanged c N w ns
          = ({ store := s2,
               calls := w.calls ++ [.get ⟨N.ServiceAccountName, ns⟩]
                 ++ [.update { current with
                      Rules := (desiredOperatorRole ⟨N.ServiceAccountName, ns⟩).Rules }] },
             true, some current, some err))
    ∧ (∀ (σ : Type) (c : Client σ RoleBinding) (w : World σ RoleBinding)
        (ns operatorNamespace : String) (current updated : RoleBinding) (reason : String)
        (s2 : σ),
        c.Get w.store ⟨N.ServiceAccountName, ns⟩ = .ok current →
        OperatorRbac.externalDNSRoleBindingChanged current
            (desiredOperatorRoleBinding N ⟨N.ServiceAccountName, ns⟩ operatorNamespace) current
          = some (true, reason, updated) →
        c.Update w.store updated = (s2, some err) →
        ensureOperatorRoleBindingInExternalDNSNS c N w ns operatorNamespace
          = some ({ store := s2,
                    calls := w.calls ++ [.get ⟨N.ServiceAccountName, ns⟩] ++ [.update updated] },
                  true, some current, some err)) := by
  refine ⟨?_, ?_, ?_, ?_⟩
  · intro σ c w externalDNS current s2 hget hch hupd
    simp [ensureExternalDNSClusterRole, currentExternalDNSClusterRole, currentObject, hget,
      updateExternalDNSClusterRole, updateObject, hch, hupd]
  · intro σ c list w ns externalDNS items current s2 hlist hget hch hupd
    simp only [currentExtDNSOwnedServiceAccounts, hlist] at hch hupd
    simp [ensureExternalDNSClusterRoleBinding, currentExtDNSOwnedServiceAccounts,
      currentExternalDNSClusterRoleBinding, currentObject, hlist, hget,
      updateExternalDNSClusterRoleBinding, updateObject, hch, hupd]
  · intro σ rulesChanged c w ns current s2 hget hch hupd
    simp [ensureOperatorRoleInExternalDNSNS, currentOperatorRoleInExternalDNSNS, currentObject,
      hget, updateOperatorRoleInExternalDNSNS, updateObject, hch, hupd]
  · intro σ c w ns operatorNamespace current updated reason s2 hget hch hupd
    simp [ensureOperatorRoleBindingInExternalDNSNS, currentOperatorRoleBindingInExternalDNSNS,
      currentObject, hget, updateOperatorRoleBindingInExternalDNSNS, updateObject, hch, hupd]

/-- C11 on clients that return a stored object and reject every write. -/
theorem ensure_update_error_keeps_current_witness :
    ensureExternalDNSClusterRole (readOnlyClient sampleDriftedClusterRole (.other "conflict"))
        sampleNames ({ store := (), calls := [] } : World Unit ClusterRole) sampleExternalDNS
      = ({ store := (),
           calls := [] ++ [.get ⟨"external-dns", ""⟩]
             ++ [.update { sampleDriftedClusterRole with
                  Rules := (desiredExternalDNSClusterRole sampleNames sampleExternalDNS).Rules }] },
         true, some sampleDriftedClusterRole, some (.other "conflict"))
    ∧ ensureExternalDNSClusterRoleBinding (readOnlyClient sampleBindingAB (.other "conflict"))
        (memLister sampleOwnedBC) sampleNames
        ({ store := (), calls := [] } : World Unit ClusterRoleBinding) "ns" sampleExternalDNS
      = ({ store := (),
           calls := [] ++ [.list "ns"] ++ [.get ⟨"external-dns", ""⟩]
             ++ [.update (Rbac.externalDNSRoleBindingChanged sampleBindingAB
                  (desiredExternalDNSClusterRoleBinding sampleNames "ns" sampleExternalDNS
                    (currentExtDNSOwnedServiceAccounts (memLister sampleOwnedBC)
                      ({ store := (), calls := [] } : World Unit ClusterRoleBinding) "ns").2.1)
                  sampleBindingAB).2.2] },
         true, some sampleBindingAB, some (.other "conflict"))
    ∧ ensureOperatorRoleInExternalDNSNS externalDNSRoleRulesChanged
        (readOnlyClient sampleDriftedRole (.other "conflict")) sampleNames
        ({ store := (), calls := [] } : World Unit Role) "ns"
      = ({ store := (),
           calls := [] ++ [.get ⟨"external-dns-operator", "ns"⟩]
             ++ [.update { sampleDriftedRole with
                  Rules := (desiredOperatorRole ⟨"external-dns-operator", "ns"⟩).Rules }] },
         true, some sampleDriftedRole, some (.other "conflict"))
    ∧ ensureOperatorRoleBindingInExternalDNSNS
        (readOnlyClient sampleDriftedRoleBinding (.other "conflict")) sampleNames
        ({ store := (), calls := [] } : World Unit RoleBinding) "ns" "operator-ns"
      = some ({ store := (),
                calls := [] ++ [.get ⟨"external-dns-operator", "ns"⟩]
                  ++ [.update ⟨⟨"external-dns-operator", "ns", "3"⟩,
                        ⟨GroupName, "Role", "external-dns-operator"⟩,
                        [⟨ServiceAccountKind, "external-dns-operator", "operator-ns"⟩]⟩] },
              true, some sampleDriftedRoleBinding, some (.other "conflict")) :=
  ⟨(ensure_update_error_keeps_current sampleNames (.other "conflict")).1 Unit _ _ _
      sampleDriftedClusterRole () rfl (by decide) rfl,
   (ensure_update_error_keeps_current sampleNames (.other "conflict")).2.1 Unit _ _ _ _ _
      sampleOwnedBC sampleBindingAB () rfl rfl (by decide) rfl,
   (ensure_update_error_keeps_current sampleNames (.other "conflict")).2.2.1 Unit _ _ _ _
      sampleDriftedRole () rfl (by decide) rfl,
   (ensure_update_error_keeps_current sampleNames (.other "conflict")).2.2.2 Unit _ _ _ _
      sampleDriftedRoleBinding _ "following fields changed: subject-namespace" () rfl
      (by decide) rfl⟩

/-- C12: updateExternalDNSClusterRole and updateOperatorRoleInExternalDNSNS
issue no Update when the rule comparison reports unchanged, and otherwise
exactly one Update, of the object that has the metadata of current and the
whole of desired.Rules. -/
theorem update_rules_all_or_nothing {σ τ : Type} (c1 : Client σ ClusterRole)
    (w1 : World σ ClusterRole)
    (current desired : ClusterRole) (rulesChanged : RulesComparison)
    (c2 : Client τ Role) (w2 : World τ Role) (rcurrent rdesired : Role) :
    (updateExternalDNSClusterRole c1 w1 current desired).1.calls
      = (if (externalDNSRoleRulesChanged current.Rules desired.Rules).1 = true then
          w1.calls ++ [.update { ObjectMeta := current.ObjectMeta, Rules := desired.Rules }]
        else w1.calls)
    ∧ (updateOperatorRoleInExternalDNSNS rulesChanged c2 w2 rcurrent rdesired).1.calls
      = (if (rulesChanged rcurrent.Rules rdesired.Rules).1 = true then
          w2.calls ++ [.update { ObjectMeta := rcurrent.ObjectMeta, Rules := rdesired.Rules }]
        else w2.calls) := by
  constructor
  · unfold updateExternalDNSClusterRole updateObject
    cases h : (externalDNSRoleRulesChanged current.Rules desired.Rules).1
    · simp [h]
    · simp only [h, Bool.not_true, Bool.false_eq_true, if_false, if_true]
      cases hu : c1.Update w1.store { ObjectMeta := current.ObjectMeta, Rules := desired.Rules }
        with
      | mk s e => cases e <;> simp [hu]
  · unfold updateOperatorRoleInExternalDNSNS updateObject
    cases h : (rulesChanged rcurrent.Rules rdesired.Rules).1
    · simp [h]
    · simp only [h, Bool.not_true, Bool.false_eq_true, if_false, if_true]
      cases hu : c2.Update w2.store { ObjectMeta := rcurrent.ObjectMeta, Rules := rdesired.Rules }
        with
      | mk s e => cases e <;> simp [hu]

/-! ## The claims on the desired bindings -/

/-- C13: the subjects of the desired cluster role binding are the service
account of the ExternalDNS resource name, followed by one service account per
owned name other than that name, in the order of the owned names, all in the
given namespace; so their number is one more than the owned names that differ
from it, and that name occurs exactly once. -/
theorem desiredClusterRoleBinding_subjects (N : Names) (ns : String) (externalDNS : ExternalDNS)
    (owned : List String) :
    (desiredExternalDNSClusterRoleBinding N ns externalDNS owned).Subjects
      = { Kind := ServiceAccountKind, Name := N.ExternalDNSResourceName externalDNS,
          Namespace := ns }
        :: (owned.filter (fun sa => decide (sa ≠ N.ExternalDNSResourceName externalDNS))).map
            (fun sa => ({ Kind := ServiceAccountKind, Name := sa, Namespace := ns } : Subject))
    ∧ (desiredExternalDNSClusterRoleBinding N ns externalDNS owned).Subjects.length
      = 1 + (owned.filter (fun sa => decide (sa ≠ N.ExternalDNSResourceName externalDNS))).length
    ∧ ((desiredExternalDNSClusterRoleBinding N ns externalDNS owned).Subjects.map
        Subject.Name).count (N.ExternalDNSResourceName externalDNS) = 1 := by
  have h : (desiredExternalDNSClusterRoleBinding N ns externalDNS owned).Subjects
      = { Kind := ServiceAccountKind, Name := N.ExternalDNSResourceName externalDNS,
          Namespace := ns }
        :: (owned.filter (fun sa => decide (sa ≠ N.ExternalDNSResourceName externalDNS))).map
            (fun sa => ({ Kind := ServiceAccountKind, Name := sa, Namespace := ns } : Subject)) := by
    unfold desiredExternalDNSClusterRoleBinding
    rw [subjects_foldl]
    rfl
  refine ⟨h, ?_, ?_⟩
  · rw [h]; simp [Nat.add_comm]
  · rw [h]
    simp only [List.map_cons, List.map_map, List.count_cons_self]
    have : List.count (N.ExternalDNSResourceName externalDNS)
        (List.map (Subject.Name ∘ fun sa => ({ Kind := ServiceAccountKind, Name := sa, Namespace := ns } : Subject))
          (owned.filter (fun sa => decide (sa ≠ N.ExternalDNSResourceName externalDNS)))) = 0 := by
      rw [List.count_eq_zero]
      simp
    omega

/-- C14: the desired operator role binding has exactly one subject, the
service account named controller.ServiceAccountName in operatorNamespace; the
binding itself sits in name.Namespace and refers to the Role named name.Name. -/
theorem desiredOperatorRoleBinding_shape (N : Names) (name : NamespacedName)
    (operatorNamespace : String) :
    (desiredOperatorRoleBinding N name operatorNamespace).Subjects
      = [{ Kind := "ServiceAccount", Name := N.ServiceAccountName,
           Namespace := operatorNamespace }]
    ∧ (desiredOperatorRoleBinding N name operatorNamespace).ObjectMeta.Name = name.Name
    ∧ (desiredOperatorRoleBinding N name operatorNamespace).ObjectMeta.Namespace = name.Namespace
    ∧ (desiredOperatorRoleBinding N name operatorNamespace).RoleRef.Kind = "Role"
    ∧ (desiredOperatorRoleBinding N name operatorNamespace).RoleRef.Name = name.Name :=
  ⟨rfl, rfl, rfl, rfl, rfl⟩

/-! ## The claims on the subjects of the cluster role binding -/

/-- C15 as stated fails: when current has no subjects the range over the
desired subjects is skipped, and a desired subject absent from current does
not make the comparison report a change. -/
theorem clusterRoleBindingChanged_not_on_empty_current :
    ¬ ((∃ d ∈ sampleDesiredABC.Subjects, ∀ c ∈ sampleBindingNoSubjects.Subjects,
          subjectKey d ≠ subjectKey c)
        → (Rbac.externalDNSRoleBindingChanged sampleBindingNoSubjects sampleDesiredABC
            sampleBindingNoSubjects).1 = true) := by
  intro h
  have := h ⟨⟨ServiceAccountKind, "external-dns-a", "ns"⟩, by decide, by decide⟩
  revert this
  decide

/-- C15, amended: when current has at least one subject and some desired
subject has a key that is the key of no subject of current, the comparison of
cluster role bindings reports a change. -/
theorem clusterRoleBindingChanged_of_missing_subject
    (current desired updated : ClusterRoleBinding) (hne : current.Subjects ≠ [])
    (h : ∃ d ∈ desired.Subjects, ∀ c ∈ current.Subjects, subjectKey d ≠ subjectKey c) :
    (Rbac.externalDNSRoleBindingChanged current desired updated).1 = true := by
  rw [Rbac.changed_iff]
  right
  obtain ⟨d, hd, hc⟩ := h
  exact ⟨hne, d, hd, fun c hcm e => hc c hcm e.symm⟩

/-- C15, amended, on current subjects a, b and desired subjects a, b, c. -/
theorem clusterRoleBindingChanged_of_missing_subject_witness :
    sampleBindingAB.Subjects ≠ []
    ∧ (∃ d ∈ sampleDesiredABC.Subjects, ∀ c ∈ sampleBindingAB.Subjects,
        subjectKey d ≠ subjectKey c)
    ∧ (Rbac.externalDNSRoleBindingChanged sampleBindingAB sampleDesiredABC sampleBindingAB).1
        = true :=
  ⟨by decide, ⟨⟨ServiceAccountKind, "external-dns-c", "ns"⟩, by decide, by decide⟩,
   clusterRoleBindingChanged_of_missing_subject sampleBindingAB sampleDesiredABC sampleBindingAB
    (by decide) ⟨⟨ServiceAccountKind, "external-dns-c", "ns"⟩, by decide, by decide⟩⟩

/-- C19 fails on the code: the subjects (a-b, c) and (a, b-c) share the key
a-b-c, so the comparison reports no change; likewise the stored subject
(external-dns-foo-bar, baz) is taken for the desired subject
(external-dns-foo, bar-baz) of the ExternalDNS foo in namespace bar-baz. -/
theorem clusterRoleBindingChanged_confuses_subjects :
    (Rbac.externalDNSRoleBindingChanged
        ⟨metaOf "b" "", ⟨GroupName, "ClusterRole", "b"⟩, [⟨ServiceAccountKind, "a-b", "c"⟩]⟩
        ⟨metaOf "b" "", ⟨GroupName, "ClusterRole", "b"⟩, [⟨ServiceAccountKind, "a", "b-c"⟩]⟩
        ⟨metaOf "b" "", ⟨GroupName, "ClusterRole", "b"⟩, [⟨ServiceAccountKind, "a-b", "c"⟩]⟩).1
      = false
    ∧ (Rbac.externalDNSRoleBindingChanged sampleBindingFooBar
        (desiredExternalDNSClusterRoleBinding sampleNames "bar-baz" ⟨"foo", "Service"⟩ [])
        sampleBindingFooBar).1 = false
    ∧ (desiredExternalDNSClusterRoleBinding sampleNames "bar-baz" ⟨"foo", "Service"⟩ []).Subjects
        = [⟨ServiceAccountKind, "external-dns-foo", "bar-baz"⟩]
    ∧ ¬ (∃ c ∈ sampleBindingFooBar.Subjects,
          c.Name = "external-dns-foo" ∧ c.Namespace = "bar-baz") := by
  decide

/-! ## The claims on the keys of the rule map -/

/-- C16 as stated fails: the pair (a/b, c) occurs on one side only, yet both
sides produce the one key a/b/c with the same verbs and compare as unchanged. -/
theorem rulesChanged_same_key_other_pair :
    ¬ ((pairOccurs [⟨["a/b"], ["c"], ["get"]⟩] "a/b" "c" = true
          ∧ pairOccurs [⟨["a"], ["b/c"], ["get"]⟩] "a/b" "c" = false)
        → (externalDNSRoleRulesChanged [⟨["a/b"], ["c"], ["get"]⟩]
              [⟨["a"], ["b/c"], ["get"]⟩]).1 = true
          ∧ (externalDNSRoleRulesChanged [⟨["a/b"], ["c"], ["get"]⟩]
              [⟨["a"], ["b/c"], ["get"]⟩]).2 ≠ "") := by
  decide

/-- C16, amended: when a pair occurs in a rule of one list and the key made
of it is produced by no rule of the other list, the comparison reports a
change with a non-empty reason. -/
theorem rulesChanged_of_key_on_one_side (current desired : List PolicyRule) (g r : String)
    (h : (pairOccurs current g r = true ∧ g ++ "/" ++ r ∉ desired.flatMap ruleKeys)
      ∨ (pairOccurs desired g r = true ∧ g ++ "/" ++ r ∉ current.flatMap ruleKeys)) :
    (externalDNSRoleRulesChanged current desired).1 = true
    ∧ (externalDNSRoleRulesChanged current desired).2 ≠ "" := by
  have hch : (externalDNSRoleRulesChanged current desired).1 = true := by
    cases hc : (externalDNSRoleRulesChanged current desired).1 with
    | true => rfl
    | false =>
      exfalso
      have heq := (rulesChanged_fst_iff current desired).1 hc (g ++ "/" ++ r)
      rcases h with ⟨hin, hout⟩ | ⟨hin, hout⟩
      · have h1 := (inducedVerbs_isSome current _).2 (mem_ruleKeys_of_pairOccurs hin)
        rw [heq] at h1
        exact hout ((inducedVerbs_isSome desired _).1 h1)
      · have h1 := (inducedVerbs_isSome desired _).2 (mem_ruleKeys_of_pairOccurs hin)
        rw [← heq] at h1
        exact hout ((inducedVerbs_isSome current _).1 h1)
  exact ⟨hch, rulesChanged_reason_ne_empty current desired hch⟩

/-- C16, amended, on a rule for apps deployments without verbs that only the
current side has. -/
theorem rulesChanged_of_key_on_one_side_witness :
    ((pairOccurs [⟨[""], ["secrets"], ["get"]⟩, ⟨["apps"], ["deployments"], []⟩] "apps"
          "deployments" = true
        ∧ "apps" ++ "/" ++ "deployments" ∉ [⟨[""], ["secrets"], ["get"]⟩].flatMap ruleKeys)
      ∨ (pairOccurs [⟨[""], ["secrets"], ["get"]⟩] "apps" "deployments" = true
        ∧ "apps" ++ "/" ++ "deployments"
            ∉ [⟨[""], ["secrets"], ["get"]⟩, ⟨["apps"], ["deployments"], []⟩].flatMap ruleKeys))
    ∧ (externalDNSRoleRulesChanged [⟨[""], ["secrets"], ["get"]⟩, ⟨["apps"], ["deployments"], []⟩]
        [⟨[""], ["secrets"], ["get"]⟩]).1 = true
    ∧ (externalDNSRoleRulesChanged [⟨[""], ["secrets"], ["get"]⟩, ⟨["apps"], ["deployments"], []⟩]
        [⟨[""], ["secrets"], ["get"]⟩]).2 ≠ "" :=
  ⟨by decide,
   rulesChanged_of_key_on_one_side _ _ "apps" "deployments" (by decide)⟩

/-- C17: the keys of the rule map are exactly the strings made of an
api-group and a resource of one rule, each key once; the value under a key is
the sorted verbs of the last rule producing the key, that is the rule after
which no rule produces it; and the sorted verbs are an ascending rearrangement
of the verbs, duplicates kept. -/
theorem buildSortedPolicyRuleMap_last_rule_wins (rules : List PolicyRule) (k : String) :
    (k ∈ (buildSortedPolicyRuleMap rules).map Prod.fst
        ↔ ∃ rule ∈ rules, ∃ g ∈ rule.APIGroups, ∃ r ∈ rule.Resources, g ++ "/" ++ r = k)
    ∧ ((buildSortedPolicyRuleMap rules).map Prod.fst).Nodup
    ∧ (buildSortedPolicyRuleMap rules).get? k
        = (lastRuleFor rules k).map (fun rule => sortStrings rule.Verbs)
    ∧ (∀ rule, lastRuleFor rules k = some rule
        ↔ k ∈ ruleKeys rule
          ∧ ∃ pre post, rules = pre ++ rule :: post ∧ ∀ later ∈ post, k ∉ ruleKeys later)
    ∧ (∀ rule ∈ rules, (sortStrings rule.Verbs).Perm rule.Verbs
        ∧ (sortStrings rule.Verbs).Sorted strLE) := by
  refine ⟨?_, nodup_keys_buildSortedPolicyRuleMap rules, get?_buildSortedPolicyRuleMap rules k,
    lastRuleFor_eq_some_iff rules k,
    fun rule _ => ⟨sortStrings_perm rule.Verbs, sortStrings_sorted rule.Verbs⟩⟩
  rw [GoMap.mem_keys_iff, get?_buildSortedPolicyRuleMap, inducedVerbs_isSome]
  simp only [List.mem_flatMap, ruleKeys, List.mem_map]

/-- C18: the rules of the desired cluster role (with or without the route
rule) and of the desired operator role produce pairwise distinct keys, so the
rule map has one key per api-group and resource of every rule (6 or 5 for the
cluster role, 3 for the operator role) and binds each key to the sorted verbs
of its rule. -/
theorem declared_rules_never_collide (N : Names) (externalDNS : ExternalDNS)
    (name : NamespacedName) :
    ((desiredExternalDNSClusterRole N externalDNS).Rules.flatMap ruleKeys).Nodup
    ∧ (buildSortedPolicyRuleMap (desiredExternalDNSClusterRole N externalDNS).Rules).length
      = ((desiredExternalDNSClusterRole N externalDNS).Rules.map
          (fun rule => rule.APIGroups.length * rule.Resources.length)).sum
    ∧ (buildSortedPolicyRuleMap (desiredExternalDNSClusterRole N externalDNS).Rules).length
      = (if externalDNS.SourceType = N.SourceTypeRoute then 6 else 5)
    ∧ (∀ rule ∈ (desiredExternalDNSClusterRole N externalDNS).Rules, ∀ k ∈ ruleKeys rule,
        (buildSortedPolicyRuleMap (desiredExternalDNSClusterRole N externalDNS).Rules).get? k
          = some (sortStrings rule.Verbs))
    ∧ ((desiredOperatorRole name).Rules.flatMap ruleKeys).Nodup
    ∧ (buildSortedPolicyRuleMap (desiredOperatorRole name).Rules).length
      = ((desiredOperatorRole name).Rules.map
          (fun rule => rule.APIGroups.length * rule.Resources.length)).sum
    ∧ (buildSortedPolicyRuleMap (desiredOperatorRole name).Rules).length = 3
    ∧ (∀ rule ∈ (desiredOperatorRole name).Rules, ∀ k ∈ ruleKeys rule,
        (buildSortedPolicyRuleMap (desiredOperatorRole name).Rules).get? k
          = some (sortStrings rule.Verbs)) := by
  have hc : (desiredExternalDNSClusterRole N externalDNS).Rules
      = if externalDNS.SourceType = N.SourceTypeRoute then
          [⟨["networking.k8s.io"], ["ingresses"], ["get", "list", "watch"]⟩,
           ⟨[""], ["endpoints", "services", "pods", "nodes"], ["get", "list", "watch"]⟩,
           ⟨["route.openshift.io"], ["routes"], ["get", "watch", "list"]⟩]
        else
          [⟨["networking.k8s.io"], ["ingresses"], ["get", "list", "watch"]⟩,
           ⟨[""], ["endpoints", "services", "pods", "nodes"], ["get", "list", "watch"]⟩] := by
    unfold desiredExternalDNSClusterRole
    by_cases h : externalDNS.SourceType = N.SourceTypeRoute <;> simp [h]
  have hr : (desiredOperatorRole name).Rules
      = [⟨[""], ["secrets"], ["get", "list", "watch", "create", "update", "delete"]⟩,
         ⟨[""], ["serviceaccounts"], ["get", "list", "watch", "create", "update", "delete"]⟩,
         ⟨["apps"], ["deployments"], ["get", "list", "watch", "create", "update", "delete"]⟩] :=
    rfl
  rw [hc, hr]
  refine ⟨?_, ?_, ?_, ?_, by decide, by decide, by decide, by decide⟩
  · split <;> decide
  · split <;> decide
  · split <;> decide
  · split <;> decide

/-! ## The claim on index accesses -/

/-- C20: against the desired operator role binding, with updated a copy of
current, the comparison of role bindings performs every index access in range
and returns, whatever the subjects of current; against a desired binding
without subjects and a current with at least one it indexes out of range. -/
theorem roleBindingChanged_in_range (N : Names) (current : RoleBinding) (name : NamespacedName)
    (operatorNamespace : String) (m dm : ObjectMeta) (ref dref : RoleRef) (c0 : Subject)
    (crest : List Subject) :
    (OperatorRbac.externalDNSRoleBindingChanged current
        (desiredOperatorRoleBinding N name operatorNamespace) current).isSome = true
    ∧ OperatorRbac.externalDNSRoleBindingChanged ⟨m, ref, c0 :: crest⟩ ⟨dm, dref, []⟩
        ⟨m, ref, c0 :: crest⟩ = none := by
  constructor
  · unfold OperatorRbac.externalDNSRoleBindingChanged
    cases hs : current.Subjects with
    | nil => simp
    | cons s rest =>
      simp only [List.length_cons, Nat.zero_lt_succ, if_true, desiredOperatorRoleBinding,
        List.getElem?_cons_zero, OperatorRbac.setSubject0Name, OperatorRbac.setSubject0Namespace,
        hs]
      by_cases h1 : s.Name = N.ServiceAccountName <;>
        by_cases h2 : s.Namespace = operatorNamespace <;> simp [h1, h2]
  · simp [OperatorRbac.externalDNSRoleBindingChanged]

/-! ## The claim on the convergence of the role binding repair -/

/-- C21: for current and desired role bindings with at least one subject each
and updated a copy of current, the comparison returns; it leaves in updated
the role name and the name and namespace of the first subject of desired, with
the kind of that subject, the later subjects and the metadata of current;
comparing that object against desired again reports no change; and changed is
true exactly when the reason lists one of role-name, subject-name,
subject-namespace, which are the only entries it can list. -/
theorem roleBindingChanged_converges (current desired : RoleBinding) (c0 d0 : Subject)
    (crest drest : List Subject)
    (hc : current.Subjects = c0 :: crest) (hd : desired.Subjects = d0 :: drest) :
    OperatorRbac.externalDNSRoleBindingChanged current desired current
      = some (decide (strictDiff current.RoleRef desired.RoleRef c0 d0 ≠ []),
          changedReason (strictDiff current.RoleRef desired.RoleRef c0 d0),
          { ObjectMeta := current.ObjectMeta
            RoleRef := { current.RoleRef with Name := desired.RoleRef.Name }
            Subjects := { Kind := c0.Kind, Name := d0.Name, Namespace := d0.Namespace }
              :: crest })
    ∧ OperatorRbac.externalDNSRoleBindingChanged
        { ObjectMeta := current.ObjectMeta
          RoleRef := { current.RoleRef with Name := desired.RoleRef.Name }
          Subjects := { Kind := c0.Kind, Name := d0.Name, Namespace := d0.Namespace } :: crest }
        desired
        { ObjectMeta := current.ObjectMeta
          RoleRef := { current.RoleRef with Name := desired.RoleRef.Name }
          Subjects := { Kind := c0.Kind, Name := d0.Name, Namespace := d0.Namespace } :: crest }
      = some (false, changedReason [],
          { ObjectMeta := current.ObjectMeta
            RoleRef := { current.RoleRef with Name := desired.RoleRef.Name }
            Subjects := { Kind := c0.Kind, Name := d0.Name, Namespace := d0.Namespace }
              :: crest })
    ∧ (strictDiff current.RoleRef desired.RoleRef c0 d0).Sublist
        ["role-name", "subject-name", "subject-namespace"]
    ∧ (strictDiff current.RoleRef desired.RoleRef c0 d0 ≠ []
        ↔ changedReason (strictDiff current.RoleRef desired.RoleRef c0 d0) ≠ changedReason []) := by
  refine ⟨?_, ?_, ?_, ?_⟩
  · obtain ⟨m, ⟨ag, kd, nm⟩, subs⟩ := current
    obtain ⟨ck, cn, cns⟩ := c0
    simp only at hc
    subst hc
    unfold OperatorRbac.externalDNSRoleBindingChanged roleNameStep strictDiff
    by_cases h1 : nm = desired.RoleRef.Name <;>
      by_cases h2 : cn = d0.Name <;>
        by_cases h3 : cns = d0.Namespace <;>
          simp [hd, h1, h2, h3, OperatorRbac.setSubject0Name,
            OperatorRbac.setSubject0Namespace]
  · simp [OperatorRbac.externalDNSRoleBindingChanged, roleNameStep, hd]
  · unfold strictDiff
    by_cases h1 : current.RoleRef.Name = desired.RoleRef.Name <;>
      by_cases h2 : c0.Name = d0.Name <;>
        by_cases h3 : c0.Namespace = d0.Namespace <;> simp [h1, h2, h3]
  · unfold strictDiff
    by_cases h1 : current.RoleRef.Name = desired.RoleRef.Name <;>
      by_cases h2 : c0.Name = d0.Name <;>
        by_cases h3 : c0.Namespace = d0.Namespace <;> simp [h1, h2, h3] <;> decide

/-- C21 on a binding that differs from desired in the role name and in the
name and namespace of its first subject, and carries a second subject. -/
theorem roleBindingChanged_converges_witness :
    OperatorRbac.externalDNSRoleBindingChanged
        ⟨metaOf "b" "n", ⟨GroupName, "Role", "old"⟩,
          [⟨ServiceAccountKind, "X", "N1"⟩, ⟨"User", "extra", ""⟩]⟩
        ⟨metaOf "b" "n", ⟨GroupName, "Role", "b"⟩, [⟨ServiceAccountKind, "Y", "N2"⟩]⟩
        ⟨metaOf "b" "n", ⟨GroupName, "Role", "old"⟩,
          [⟨ServiceAccountKind, "X", "N1"⟩, ⟨"User", "extra", ""⟩]⟩
      = some (true, "following fields changed: role-name,subject-name,subject-namespace",
          ⟨metaOf "b" "n", ⟨GroupName, "Role", "b"⟩,
            [⟨ServiceAccountKind, "Y", "N2"⟩, ⟨"User", "extra", ""⟩]⟩)
    ∧ OperatorRbac.externalDNSRoleBindingChanged
        ⟨metaOf "b" "n", ⟨GroupName, "Role", "b"⟩,
          [⟨ServiceAccountKind, "Y", "N2"⟩, ⟨"User", "extra", ""⟩]⟩
        ⟨metaOf "b" "n", ⟨GroupName, "Role", "b"⟩, [⟨ServiceAccountKind, "Y", "N2"⟩]⟩
        ⟨metaOf "b" "n", ⟨GroupName, "Role", "b"⟩,
          [⟨ServiceAccountKind, "Y", "N2"⟩, ⟨"User", "extra", ""⟩]⟩
      = some (false, "following fields changed: ",
          ⟨metaOf "b" "n", ⟨GroupName, "Role", "b"⟩,
            [⟨ServiceAccountKind, "Y", "N2"⟩, ⟨"User", "extra", ""⟩]⟩) :=
  ⟨(roleBindingChanged_converges
      ⟨metaOf "b" "n", ⟨GroupName, "Role", "old"⟩,
        [⟨ServiceAccountKind, "X", "N1"⟩, ⟨"User", "extra", ""⟩]⟩
      ⟨metaOf "b" "n", ⟨GroupName, "Role", "b"⟩, [⟨ServiceAccountKind, "Y", "N2"⟩]⟩
      ⟨ServiceAccountKind, "X", "N1"⟩ ⟨ServiceAccountKind, "Y", "N2"⟩ [⟨"User", "extra", ""⟩] []
      rfl rfl).1,
   (roleBindingChanged_converges
      ⟨metaOf "b" "n", ⟨GroupName, "Role", "old"⟩,
        [⟨ServiceAccountKind, "X", "N1"⟩, ⟨"User", "extra", ""⟩]⟩
      ⟨metaOf "b" "n", ⟨GroupName, "Role", "b"⟩, [⟨ServiceAccountKind, "Y", "N2"⟩]⟩
      ⟨ServiceAccountKind, "X", "N1"⟩ ⟨ServiceAccountKind, "Y", "N2"⟩ [⟨"User", "extra", ""⟩] []
      rfl rfl).2.1⟩

end ExternalDNSOperator
